import Mathlib

/-!
Formal model of the chat relay servers in this repository.

The repository contains two variants of a socket.io chat server:

* `src/server.js` — modelled in namespace `SJ`. It keeps an `onlineUsers`
  object keyed by socket id, per-province and per-pair history buffers, a
  rate limiter (`checkRateLimit`) with a mute list, and HTML sanitization
  of text fields.
* `src/unnamed/part_000` — modelled in namespace `P0`. It keeps a
  `connectedUsers` map and a `nicknameToSocketId` map, validates required
  registration fields, and drops messages from unregistered sockets.

JavaScript objects and `Map`s are modelled as association lists whose
entry order is insertion order (matching `Object.values` and `Map`
iteration order): assigning to an existing key updates the entry in
place, assigning to a new key appends.  Socket ids are modelled as `Nat`,
instants (`Date.now()`) as milliseconds in `Nat`.  The `sanitize-html`
library is modelled as an abstract parameter `sanitize : String → String`
(with `sanitizeHtml undefined = ""` modelled by `sanitizeOpt`).
-/

/-- JS object/Map assignment `m[k] = v`: update the entry in place if the
key is present, otherwise append a new entry at the end. -/
def mapSet {κ α : Type} [DecidableEq κ] : List (κ × α) → κ → α → List (κ × α)
  | [], k, v => [(k, v)]
  | p :: rest, k, v =>
    if p.1 = k then (k, v) :: rest else p :: mapSet rest k v

/-- JS object/Map lookup `m[k]` / `m.get(k)`. -/
def mapGet {κ α : Type} [DecidableEq κ] (m : List (κ × α)) (k : κ) : Option α :=
  (m.find? (fun p => decide (p.1 = k))).map (fun p => p.2)

/-- JS `delete m[k]` / `m.delete(k)`. -/
def mapDelete {κ α : Type} [DecidableEq κ] (m : List (κ × α)) (k : κ) :
    List (κ × α) :=
  m.filter (fun p => decide (p.1 ≠ k))

/-- Pointwise update of a total map (used for the history and rate-limit
stores, whose JS lookups default to an empty value for absent keys). -/
def updFun {κ α : Type} [DecidableEq κ] (f : κ → α) (k : κ) (v : α) : κ → α :=
  fun x => if x = k then v else f x

/-- Last `n` elements of a list, JS `l.slice(-n)`. -/
def lastN {α : Type} (n : Nat) (l : List α) : List α :=
  l.drop (l.length - n)

/-- The `sanitize-html` call on a possibly missing payload field: a missing
(`undefined`) field is coerced to the empty string by the library. -/
def sanitizeOpt (sanitize : String → String) : Option String → String
  | none => ""
  | some s => sanitize s

/-- Lexicographic comparison of character lists, the order JS string
comparison uses (by code unit). -/
def listLtb : List Char → List Char → Bool
  | _, [] => false
  | [], _ :: _ => true
  | c1 :: r1, c2 :: r2 =>
    if c1 < c2 then true else if c2 < c1 then false else listLtb r1 r2

/-- JS string `<`, modelled as lexicographic comparison of the character
lists (the kernel-computable equivalent of the builtin order). -/
def jsStrLtb (s1 s2 : String) : Bool :=
  listLtb s1.data s2.data

/-- JS `String.prototype.toLowerCase`, modelled as the per-character
lowercase map (the kernel-computable equivalent of `String.toLower`). -/
def jsToLowerCase (s : String) : String :=
  ⟨s.data.map Char.toLower⟩

/-- Rejection text emitted on the `nickname in use` event (identical in both
server variants). -/
def nicknameInUseText (n : String) : String :=
  "El nickname \"" ++ n ++ "\" ya está en uso. Por favor, elige otro."

namespace SJ

/-- `MAX_MESSAGES_PER_PERIOD` in server.js. -/
def MAX_MESSAGES_PER_PERIOD : Nat := 2

/-- `PERIOD_SECONDS` in server.js. -/
def PERIOD_SECONDS : Nat := 1

/-- `MUTE_DURATION_MS` in server.js (`1 * 60 * 1000`). -/
def MUTE_DURATION_MS : Nat := 1 * 60 * 1000

/-- The user record stored in `onlineUsers[socket.id]` (the JS `lastSeen`
`Date` is modelled as the registration instant). -/
structure User where
  nickname : String
  gender : String
  province : String
  socketId : Nat
  lastSeen : Nat
deriving Repr, DecidableEq

/-- The per-user projection broadcast in the `user list` event. -/
structure UserListEntry where
  nickname : String
  gender : String
  province : String
  socketId : Nat
deriving Repr, DecidableEq

/-- A room message as stored in `provinceChatHistory` and broadcast on
`chat message`.  The JS record carries a `text` field for `type: 'text'`
and a `file` field for `type: 'image'`; both are the `body` here, with
`mtype` recording the `type` tag.  The JS locale-formatted time string is
modelled as the raw instant. -/
structure RoomMsg where
  sender : String
  senderGender : String
  body : String
  timestamp : Nat
  room : String
  mtype : String
deriving Repr, DecidableEq

/-- A private message as stored in `privateChatHistory` and emitted on
`private message`; `toNick` is the JS `to` field. -/
structure PrivMsg where
  sender : String
  senderGender : String
  body : String
  timestamp : Nat
  toNick : String
  mtype : String
deriving Repr, DecidableEq

/-- The mutable server state of server.js: `onlineUsers`,
`provinceChatHistory`, `privateChatHistory`, `MESSAGE_LIMITS` and
`MUTED_USERS`.  The two JS history objects and the two rate-limit maps
default to an empty value for absent keys, so they are modelled as total
maps. -/
structure ServerState where
  onlineUsers : List (Nat × User)
  provinceChatHistory : String → List RoomMsg
  privateChatHistory : String → List PrivMsg
  messageLimits : Nat → List Nat
  mutedUsers : Nat → Option Nat

/-- The empty state at server start. -/
def initialServerState : ServerState where
  onlineUsers := []
  provinceChatHistory := fun _ => []
  privateChatHistory := fun _ => []
  messageLimits := fun _ => []
  mutedUsers := fun _ => none

/-- Client-visible emissions of server.js. `chatMessage room m` is
`io.to(room).emit('chat message', m)`; `privateMessage sock m` is
`io.to(sock).emit('private message', m)`; `disconnect sock` is
`socket.disconnect(true)`. -/
inductive Out where
  | statusMessage (sock : Nat) (text : String)
  | nicknameInUse (sock : Nat) (text : String)
  | infoAccepted (sock : Nat)
  | userList (users : List UserListEntry)
  | provinceHistory (sock : Nat) (room : String) (history : List RoomMsg)
  | chatMessage (room : String) (m : RoomMsg)
  | privateMessage (sock : Nat) (m : PrivMsg)
  | disconnect (sock : Nat)
deriving Repr, DecidableEq

/-- Client-to-server events handled by server.js, each carrying the
instant `now` at which the handler runs. -/
inductive Ev where
  | connect (sock : Nat)
  | register (sock : Nat) (nickname gender province : Option String) (now : Nat)
  | chatMessage (sock : Nat) (text : String) (now : Nat)
  | imageMessage (sock : Nat) (file : String) (now : Nat)
  | privateMessage (sock : Nat) (toNick : String) (text : String) (now : Nat)
  | privateImageMessage (sock : Nat) (toNick : String) (file : String) (now : Nat)
  | disconnect (sock : Nat)
deriving Repr, DecidableEq

/-- `Math.ceil((unMuteTime - now) / 1000)` for `now < unMuteTime`. -/
def remainingSecondsOf (unMuteTime now : Nat) : Nat :=
  (unMuteTime - now + 999) / 1000

/-- `Math.ceil(remainingSeconds / 60)`. -/
def remainingMinutesOf (remainingSeconds : Nat) : Nat :=
  (remainingSeconds + 59) / 60

/-- The `status message` text sent while a user is muted. -/
def spamWaitText (remainingMinutes : Nat) : String :=
  "ESTÁS GENERANDO SPAM. Debes esperar " ++ toString remainingMinutes ++ " " ++
    (if remainingMinutes = 1 then "minuto" else "minutos") ++
    " para volver a escribir."

/-- The `status message` text sent when the rate limit is first exceeded. -/
def muteNoticeText : String :=
  "¡HAS EXCEDIDO EL LÍMITE DE MENSAJES! Has sido silenciado por " ++
    toString (MUTE_DURATION_MS / 1000 / 60) ++ " minuto."

/-- Steps 2-5 of `checkRateLimit`: filter the stored timestamps to the
last `PERIOD_SECONDS`, mute when the window is full, otherwise record the
new timestamp (keeping the last `MAX_MESSAGES_PER_PERIOD` entries). -/
def rateLimitCore (σ : ServerState) (sock : Nat) (now : Nat) :
    Bool × ServerState × List Out :=
  let userTimestamps := σ.messageLimits sock
  let recentTimestamps :=
    userTimestamps.filter (fun t => decide (now - t < PERIOD_SECONDS * 1000))
  if MAX_MESSAGES_PER_PERIOD ≤ recentTimestamps.length then
    let muted := updFun σ.mutedUsers sock (some (now + MUTE_DURATION_MS))
    (false, { σ with mutedUsers := muted },
     [Out.statusMessage sock muteNoticeText])
  else
    let limits :=
      updFun σ.messageLimits sock
        (lastN MAX_MESSAGES_PER_PERIOD (recentTimestamps ++ [now]))
    (true, { σ with messageLimits := limits }, [])

/-- `checkRateLimit(socketId)`: reject while muted (emitting the remaining
wait), lift an expired mute, then apply the sliding-window check. -/
def checkRateLimit (σ : ServerState) (sock : Nat) (now : Nat) :
    Bool × ServerState × List Out :=
  match σ.mutedUsers sock with
  | some unMuteTime =>
    if now < unMuteTime then
      (false, σ,
       [Out.statusMessage sock
         (spamWaitText (remainingMinutesOf (remainingSecondsOf unMuteTime now)))])
    else
      rateLimitCore { σ with mutedUsers := updFun σ.mutedUsers sock none } sock now
  | none => rateLimitCore σ sock now

/-- `getPrivateChatId(user1, user2)`: the two nicknames sorted and joined
with a dash. -/
def getPrivateChatId (user1 user2 : String) : String :=
  if jsStrLtb user2 user1 then user2 ++ "-" ++ user1
  else user1 ++ "-" ++ user2

/-- `getSenderData(socketId)`: nickname and gender of the registered user,
or the placeholders for an unregistered socket. -/
def getSenderData (σ : ServerState) (sock : Nat) : String × String :=
  match mapGet σ.onlineUsers sock with
  | some u => (u.nickname, u.gender)
  | none => ("Desconocido", "other")

/-- The projection used by the `user list` broadcasts. -/
def toUserListEntry (u : User) : UserListEntry :=
  ⟨u.nickname, u.gender, u.province, u.socketId⟩

/-- The `disconnect` handler: remove the profile (if any) and re-broadcast
the roster, then drop the rate-limit and mute entries. -/
def handleDisconnect (σ : ServerState) (sock : Nat) : ServerState × List Out :=
  match mapGet σ.onlineUsers sock with
  | some _ =>
    let users := mapDelete σ.onlineUsers sock
    ({ σ with onlineUsers := users,
              messageLimits := updFun σ.messageLimits sock [],
              mutedUsers := updFun σ.mutedUsers sock none },
     [Out.userList (users.map (fun p => toUserListEntry p.2))])
  | none =>
    ({ σ with messageLimits := updFun σ.messageLimits sock [],
              mutedUsers := updFun σ.mutedUsers sock none },
     [])

/-- The `register` handler: sanitize the three fields, reject (and force a
disconnect, which fires the `disconnect` handler) when any online user
holds the nickname case-insensitively, otherwise store the profile, emit
`info accepted`, broadcast the roster and replay the province history when
one exists. -/
def handleRegister (sanitize : String → String) (σ : ServerState) (sock : Nat)
    (nickname gender province : Option String) (now : Nat) :
    ServerState × List Out :=
  let sanitizedNickname := sanitizeOpt sanitize nickname
  let sanitizedGender := sanitizeOpt sanitize gender
  let sanitizedProvince := sanitizeOpt sanitize province
  match σ.onlineUsers.find?
      (fun p => decide (jsToLowerCase p.2.nickname = jsToLowerCase sanitizedNickname)) with
  | some _ =>
    let r := handleDisconnect σ sock
    (r.1,
     [Out.nicknameInUse sock (nicknameInUseText sanitizedNickname),
      Out.disconnect sock] ++ r.2)
  | none =>
    let user : User :=
      ⟨sanitizedNickname, sanitizedGender, sanitizedProvince, sock, now⟩
    let users := mapSet σ.onlineUsers sock user
    let history := σ.provinceChatHistory sanitizedProvince
    ({ σ with onlineUsers := users },
     [Out.infoAccepted sock,
      Out.userList (users.map (fun p => toUserListEntry p.2))] ++
     (if history.isEmpty then []
      else [Out.provinceHistory sock sanitizedProvince history]))

/-- The `chat message` handler: rate-limit gate, then build the sanitized
room message, append it to the sender province history (`'unknown'` for
an unregistered socket) and broadcast it to that room. -/
def handleChatMessage (sanitize : String → String) (σ : ServerState)
    (sock : Nat) (text : String) (now : Nat) : ServerState × List Out :=
  let r := checkRateLimit σ sock now
  if r.1 = false then (r.2.1, r.2.2)
  else
    let σ1 := r.2.1
    let sd := getSenderData σ1 sock
    let userProvince :=
      match mapGet σ1.onlineUsers sock with
      | some u => u.province
      | none => "unknown"
    let message : RoomMsg :=
      ⟨sd.1, sd.2, sanitize text, now, userProvince, "text"⟩
    let hist :=
      updFun σ1.provinceChatHistory userProvince
        (σ1.provinceChatHistory userProvince ++ [message])
    ({ σ1 with provinceChatHistory := hist },
     r.2.2 ++ [Out.chatMessage userProvince message])

/-- The `image message` handler: like `chat message` but the `file`
payload is stored and broadcast without sanitization. -/
def handleImageMessage (σ : ServerState) (sock : Nat) (file : String)
    (now : Nat) : ServerState × List Out :=
  let r := checkRateLimit σ sock now
  if r.1 = false then (r.2.1, r.2.2)
  else
    let σ1 := r.2.1
    let sd := getSenderData σ1 sock
    let userProvince :=
      match mapGet σ1.onlineUsers sock with
      | some u => u.province
      | none => "unknown"
    let message : RoomMsg := ⟨sd.1, sd.2, file, now, userProvince, "image"⟩
    let hist :=
      updFun σ1.provinceChatHistory userProvince
        (σ1.provinceChatHistory userProvince ++ [message])
    ({ σ1 with provinceChatHistory := hist },
     r.2.2 ++ [Out.chatMessage userProvince message])

/-- The `private message` handler: rate-limit gate, resolve the recipient
by exact nickname over the online users, silently drop when the sender
nickname is falsy or the recipient is absent, otherwise append to the
pair history and deliver to the recipient socket and back to the sender
socket. -/
def handlePrivateMessage (sanitize : String → String) (σ : ServerState)
    (sock : Nat) (toNick : String) (text : String) (now : Nat) :
    ServerState × List Out :=
  let r := checkRateLimit σ sock now
  if r.1 = false then (r.2.1, r.2.2)
  else
    let σ1 := r.2.1
    let sd := getSenderData σ1 sock
    match σ1.onlineUsers.find? (fun p => decide (p.2.nickname = toNick)) with
    | none => (σ1, r.2.2)
    | some rp =>
      if sd.1 = "" then (σ1, r.2.2)
      else
        let recipientUser := rp.2
        let message : PrivMsg :=
          ⟨sd.1, sd.2, sanitize text, now, recipientUser.nickname, "text"⟩
        let privateChatId := getPrivateChatId sd.1 recipientUser.nickname
        let hist :=
          updFun σ1.privateChatHistory privateChatId
            (σ1.privateChatHistory privateChatId ++ [message])
        ({ σ1 with privateChatHistory := hist },
         r.2.2 ++
         [Out.privateMessage recipientUser.socketId message,
          Out.privateMessage sock message])

/-- The `private image message` handler: like `private message` but the
`file` payload is stored and delivered without sanitization. -/
def handlePrivateImageMessage (σ : ServerState) (sock : Nat)
    (toNick : String) (file : String) (now : Nat) : ServerState × List Out :=
  let r := checkRateLimit σ sock now
  if r.1 = false then (r.2.1, r.2.2)
  else
    let σ1 := r.2.1
    let sd := getSenderData σ1 sock
    match σ1.onlineUsers.find? (fun p => decide (p.2.nickname = toNick)) with
    | none => (σ1, r.2.2)
    | some rp =>
      if sd.1 = "" then (σ1, r.2.2)
      else
        let recipientUser := rp.2
        let message : PrivMsg :=
          ⟨sd.1, sd.2, file, now, recipientUser.nickname, "image"⟩
        let privateChatId := getPrivateChatId sd.1 recipientUser.nickname
        let hist :=
          updFun σ1.privateChatHistory privateChatId
            (σ1.privateChatHistory privateChatId ++ [message])
        ({ σ1 with privateChatHistory := hist },
         r.2.2 ++
         [Out.privateMessage recipientUser.socketId message,
          Out.privateMessage sock message])

/-- The `connection` callback body: clear any stale rate-limit and mute
entries for the fresh socket. -/
def handleConnect (σ : ServerState) (sock : Nat) : ServerState × List Out :=
  ({ σ with messageLimits := updFun σ.messageLimits sock [],
            mutedUsers := updFun σ.mutedUsers sock none },
   [])

/-- One event-loop dispatch of server.js. -/
def step (sanitize : String → String) (σ : ServerState) (e : Ev) :
    ServerState × List Out :=
  match e with
  | .connect sock => handleConnect σ sock
  | .register sock n g p now => handleRegister sanitize σ sock n g p now
  | .chatMessage sock text now => handleChatMessage sanitize σ sock text now
  | .imageMessage sock file now => handleImageMessage σ sock file now
  | .privateMessage sock toNick text now =>
      handlePrivateMessage sanitize σ sock toNick text now
  | .privateImageMessage sock toNick file now =>
      handlePrivateImageMessage σ sock toNick file now
  | .disconnect sock => handleDisconnect σ sock

/-- Sequential processing of an event list, collecting all emissions in
order. -/
def run (sanitize : String → String) (σ : ServerState) : List Ev →
    ServerState × List Out
  | [] => (σ, [])
  | e :: rest =>
    let r := step sanitize σ e
    let r2 := run sanitize r.1 rest
    (r2.1, r.2 ++ r2.2)

/-- The sequence of room messages for room `p` that a socket `s` joined to
`p` observes in an emission stream: the payload of a history replay
addressed to `s` for room `p`, and every room broadcast to `p`, in
emission order. -/
def roomFeed (s : Nat) (p : String) : List Out → List RoomMsg
  | [] => []
  | Out.provinceHistory s2 p2 h :: rest =>
    (if s2 = s ∧ p2 = p then h else []) ++ roomFeed s p rest
  | Out.chatMessage p2 m :: rest =>
    (if p2 = p then [m] else []) ++ roomFeed s p rest
  | _ :: rest => roomFeed s p rest

/-- Whether an event is a `register` event from socket `s`. -/
def isRegisterFrom (s : Nat) : Ev → Bool
  | .register s2 _ _ _ _ => decide (s2 = s)
  | _ => false

/-- A muted state used to witness the rejected-message theorems: socket 1
is muted until instant 100. -/
def mutedWitnessState : ServerState :=
  { initialServerState with mutedUsers := (fun s => if s = 1 then some 100
     else none) }

/-- Uniqueness invariant of the server.js registry: pairwise distinct
socket ids and pairwise distinct case-insensitive nicknames among the
online users. -/
def RegistryInv (σ : ServerState) : Prop :=
  σ.onlineUsers.Pairwise
    (fun p q => p.1 ≠ q.1 ∧ jsToLowerCase p.2.nickname ≠ jsToLowerCase q.2.nickname)

end SJ

namespace P0

/-- The user record stored in `connectedUsers` by the unnamed variant. -/
structure P0User where
  id : Nat
  nickname : String
  sex : String
  province : String
deriving Repr, DecidableEq

/-- A room message built by the `chat message` handler of the unnamed
variant (the locale-formatted time string is modelled as the raw
instant). -/
structure P0RoomMsg where
  sender : String
  text : String
  timestamp : Nat
  room : String
deriving Repr, DecidableEq

/-- A private message built by the `private message` handler of the
unnamed variant; `fromNick`/`toNick` are the JS `from`/`to` fields. -/
structure P0PrivMsg where
  fromNick : String
  toNick : String
  text : String
  timestamp : Nat
deriving Repr, DecidableEq

/-- The mutable state of the unnamed variant: the `connectedUsers` map and
the `nicknameToSocketId` map. -/
structure P0State where
  connectedUsers : List (Nat × P0User)
  nicknameToSocketId : List (String × Nat)
deriving Repr, DecidableEq

/-- The empty state at server start. -/
def initialP0State : P0State where
  connectedUsers := []
  nicknameToSocketId := []

/-- Client-visible emissions of the unnamed variant.  `statusToSock` is
`socket.emit('status message', ...)`, `statusToRoom` is
`io.to(province).emit('status message', ...)`, `statusAll` is
`io.emit('status message', ...)`. -/
inductive Out where
  | statusToSock (sock : Nat) (text : String)
  | statusToRoom (room : String) (text : String)
  | statusAll (text : String)
  | nicknameInUse (sock : Nat) (text : String)
  | infoAccepted (sock : Nat) (province : String)
  | userList (users : List P0User)
  | chatToRoom (room : String) (m : P0RoomMsg)
  | privateMessage (sock : Nat) (m : P0PrivMsg)
  | disconnect (sock : Nat)
deriving Repr, DecidableEq

/-- Client-to-server events handled by the unnamed variant. -/
inductive Ev where
  | userInfo (sock : Nat) (nickname sex province : Option String)
  | chatMessage (sock : Nat) (text : String) (now : Nat)
  | privateMessage (sock : Nat) (toNick : String) (text : String) (now : Nat)
  | disconnect (sock : Nat)
deriving Repr, DecidableEq

/-- JS falsiness of a possibly missing string payload field: `undefined`
and the empty string are falsy. -/
def falsyStr : Option String → Bool
  | none => true
  | some s => decide (s = "")

/-- The `status message` text for an incomplete registration. -/
def incompleteInfoText : String :=
  "Información de usuario incompleta. Por favor, reintenta."

/-- The room `status message` announcing a join. -/
def joinedText (nickname : String) : String :=
  nickname ++ " se ha unido al canal."

/-- The global `status message` announcing a departure. -/
def leftText (nickname : String) : String :=
  nickname ++ " se ha desconectado."

/-- The `status message` text when a private recipient is not found. -/
def notFoundText (toNick : String) : String :=
  "El usuario \"" ++ toNick ++ "\" no está online o no fue encontrado."

/-- The `disconnect` handler of the unnamed variant: remove the profile,
release the nickname when no remaining connection holds it, and broadcast
the roster and a departure notice. -/
def handleDisconnect (τ : P0State) (sock : Nat) : P0State × List Out :=
  match mapGet τ.connectedUsers sock with
  | some user =>
    let users := mapDelete τ.connectedUsers sock
    let isNicknameStillInUseByAnotherSocket :=
      users.any (fun p =>
        decide (p.2.nickname = user.nickname) && decide (p.1 ≠ sock))
    let nmap :=
      if isNicknameStillInUseByAnotherSocket then τ.nicknameToSocketId
      else mapDelete τ.nicknameToSocketId user.nickname
    (⟨users, nmap⟩,
     [Out.userList (users.map (fun p => p.2)),
      Out.statusAll (leftText user.nickname)])
  | none => (τ, [])

/-- The incomplete-info rejection path of `user_info`: notify, then force
a disconnect (which fires the `disconnect` handler). -/
def incompleteBranch (τ : P0State) (sock : Nat) : P0State × List Out :=
  let r := handleDisconnect τ sock
  (r.1,
   [Out.statusToSock sock incompleteInfoText, Out.disconnect sock] ++ r.2)

/-- The body of `user_info` once the three fields are known non-falsy. -/
def userInfoMain (τ : P0State) (sock : Nat) (n sx pv : String) :
    P0State × List Out :=
  match mapGet τ.nicknameToSocketId n with
  | some existingSocketId =>
    if existingSocketId ≠ sock then
      let r := handleDisconnect τ sock
      (r.1,
       [Out.nicknameInUse sock (nicknameInUseText n), Out.disconnect sock] ++
       r.2)
    else
      match mapGet τ.connectedUsers sock with
      | some currentUser =>
        if currentUser.sex ≠ sx ∨ currentUser.province ≠ pv then
          ({ τ with connectedUsers :=
              mapSet τ.connectedUsers sock ⟨sock, n, sx, pv⟩ }, [])
        else (τ, [])
      | none => (τ, [])
  | none =>
    let user : P0User := ⟨sock, n, sx, pv⟩
    let users := mapSet τ.connectedUsers sock user
    (⟨users, mapSet τ.nicknameToSocketId n sock⟩,
     [Out.userList (users.map (fun p => p.2)),
      Out.infoAccepted sock pv,
      Out.statusToRoom pv (joinedText n)])

/-- The `user_info` handler: validate that the three required fields are
present and non-empty (JS truthiness), then run the nickname-in-use check
and registration. -/
def handleUserInfo (τ : P0State) (sock : Nat)
    (nickname sex province : Option String) : P0State × List Out :=
  if falsyStr nickname || falsyStr sex || falsyStr province then
    incompleteBranch τ sock
  else
    userInfoMain τ sock (nickname.getD "") (sex.getD "") (province.getD "")

/-- The `chat message` handler of the unnamed variant: messages from
sockets without a registered profile are dropped with no emission;
otherwise the message is broadcast to the sender province room.  No
history is kept in this variant. -/
def handleChatMessage (τ : P0State) (sock : Nat) (text : String)
    (now : Nat) : P0State × List Out :=
  match mapGet τ.connectedUsers sock with
  | none => (τ, [])
  | some user =>
    (τ, [Out.chatToRoom user.province ⟨user.nickname, text, now, user.province⟩])

/-- The `private message` handler of the unnamed variant: drop when the
sender is unregistered; resolve the recipient through
`nicknameToSocketId`; deliver to the recipient socket and echo to the
sender socket on success, otherwise notify the sender with a status
message. -/
def handlePrivateMessage (τ : P0State) (sock : Nat) (toNick : String)
    (msgText : String) (now : Nat) : P0State × List Out :=
  match mapGet τ.connectedUsers sock with
  | none => (τ, [])
  | some user =>
    match mapGet τ.nicknameToSocketId toNick with
    | some recipientSocketId =>
      let privateMessage : P0PrivMsg := ⟨user.nickname, toNick, msgText, now⟩
      (τ, [Out.privateMessage recipientSocketId privateMessage,
           Out.privateMessage sock privateMessage])
    | none =>
      (τ, [Out.statusToSock sock (notFoundText toNick)])

/-- One event-loop dispatch of the unnamed variant. -/
def step (τ : P0State) (e : Ev) : P0State × List Out :=
  match e with
  | .userInfo sock n sx pv => handleUserInfo τ sock n sx pv
  | .chatMessage sock text now => handleChatMessage τ sock text now
  | .privateMessage sock toNick text now =>
      handlePrivateMessage τ sock toNick text now
  | .disconnect sock => handleDisconnect τ sock

/-- Sequential processing of an event list. -/
def run (τ : P0State) : List Ev → P0State × List Out
  | [] => (τ, [])
  | e :: rest =>
    let r := step τ e
    let r2 := run r.1 rest
    (r2.1, r.2 ++ r2.2)

/-- Uniqueness invariant of the unnamed variant registry: pairwise
distinct socket ids among the connected users, and every connected user's
nickname maps back to its socket id in `nicknameToSocketId`. -/
def RegistryInv (τ : P0State) : Prop :=
  τ.connectedUsers.Pairwise (fun p q => p.1 ≠ q.1) ∧
  ∀ p ∈ τ.connectedUsers,
    mapGet τ.nicknameToSocketId p.2.nickname = some p.1

end P0

theorem mem_mapSet {κ α : Type} [DecidableEq κ] {m : List (κ × α)} {k : κ}
    {v : α} {a : κ × α} (h : a ∈ mapSet m k v) : a = (k, v) ∨ a ∈ m := by
  induction m with
  | nil => left; simpa [mapSet] using h
  | cons p rest ih =>
    by_cases hk : p.1 = k
    · simp only [mapSet, if_pos hk, List.mem_cons] at h
      rcases h with h | h
      · left; exact h
      · right; exact List.mem_cons_of_mem _ h
    · simp only [mapSet, if_neg hk, List.mem_cons] at h
      rcases h with h | h
      · right; exact h ▸ List.mem_cons_self _ _
      · rcases ih h with h2 | h2
        · left; exact h2
        · right; exact List.mem_cons_of_mem _ h2

theorem pairwise_mapSet {κ α : Type} [DecidableEq κ]
    {R : (κ × α) → (κ × α) → Prop} {m : List (κ × α)} {k : κ} {v : α}
    (hm : m.Pairwise R)
    (hnew : ∀ a ∈ m, a.1 ≠ k → R a (k, v) ∧ R (k, v) a)
    (hkey : ∀ a b, R a b → a.1 ≠ b.1) :
    (mapSet m k v).Pairwise R := by
  induction m with
  | nil => simp [mapSet]
  | cons p rest ih =>
    rcases List.pairwise_cons.mp hm with ⟨hp, hrest⟩
    by_cases hk : p.1 = k
    · simp only [mapSet, if_pos hk]
      refine List.pairwise_cons.mpr ⟨?_, hrest⟩
      intro a ha
      have hne : a.1 ≠ k := fun hh => hkey p a (hp a ha) (hk.trans hh.symm)
      exact (hnew a (List.mem_cons_of_mem _ ha) hne).2
    · simp only [mapSet, if_neg hk]
      refine List.pairwise_cons.mpr
        ⟨?_, ih hrest (fun a ha hk2 => hnew a (List.mem_cons_of_mem _ ha) hk2)⟩
      intro a ha
      rcases mem_mapSet ha with h2 | h2
      · exact h2 ▸ (hnew p (List.mem_cons_self _ _) hk).1
      · exact hp a h2

theorem mem_mapSet_of_nodupKeys {κ α : Type} [DecidableEq κ]
    {m : List (κ × α)} {k : κ} {v : α} {a : κ × α}
    (hm : m.Pairwise (fun p q => p.1 ≠ q.1)) (h : a ∈ mapSet m k v) :
    a = (k, v) ∨ (a ∈ m ∧ a.1 ≠ k) := by
  induction m with
  | nil => left; simpa [mapSet] using h
  | cons p rest ih =>
    rcases List.pairwise_cons.mp hm with ⟨hp, hrest⟩
    by_cases hk : p.1 = k
    · simp only [mapSet, if_pos hk, List.mem_cons] at h
      rcases h with h | h
      · left; exact h
      · right
        exact ⟨List.mem_cons_of_mem _ h,
          fun hh => hp a h (hk.trans hh.symm)⟩
    · simp only [mapSet, if_neg hk, List.mem_cons] at h
      rcases h with h | h
      · right; exact ⟨h ▸ List.mem_cons_self _ _, h ▸ hk⟩
      · rcases ih hrest h with h2 | ⟨h3, h4⟩
        · left; exact h2
        · right; exact ⟨List.mem_cons_of_mem _ h3, h4⟩

theorem mapGet_nil {κ α : Type} [DecidableEq κ] (k : κ) :
    mapGet ([] : List (κ × α)) k = none := by
  simp [mapGet]

theorem mapGet_cons {κ α : Type} [DecidableEq κ] (p : κ × α)
    (m : List (κ × α)) (k : κ) :
    mapGet (p :: m) k = if p.1 = k then some p.2 else mapGet m k := by
  by_cases h : p.1 = k
  · simp [mapGet, h]
  · simp [mapGet, h]

theorem mapGet_mapSet_self {κ α : Type} [DecidableEq κ] (m : List (κ × α))
    (k : κ) (v : α) : mapGet (mapSet m k v) k = some v := by
  induction m with
  | nil => simp [mapSet, mapGet_cons, mapGet_nil]
  | cons p rest ih =>
    by_cases hk : p.1 = k
    · simp [mapSet, if_pos hk, mapGet_cons]
    · simp only [mapSet, if_neg hk]
      rw [mapGet_cons, if_neg hk]
      exact ih

theorem mapGet_mapSet_ne {κ α : Type} [DecidableEq κ] (m : List (κ × α))
    (k k2 : κ) (v : α) (h : k2 ≠ k) :
    mapGet (mapSet m k v) k2 = mapGet m k2 := by
  have hk2 : ¬ (k = k2) := fun hh => h hh.symm
  induction m with
  | nil => simp [mapSet, mapGet_cons, mapGet_nil, hk2]
  | cons p rest ih =>
    by_cases hk : p.1 = k
    · have hpk : ¬ (p.1 = k2) := fun hh => h (hh.symm.trans hk)
      simp [mapSet, if_pos hk, mapGet_cons, hk2, hpk]
    · simp only [mapSet, if_neg hk]
      rw [mapGet_cons, mapGet_cons]
      by_cases hp2 : p.1 = k2
      · simp [hp2]
      · simp only [if_neg hp2]
        exact ih

theorem mem_mapDelete {κ α : Type} [DecidableEq κ] {m : List (κ × α)}
    {k : κ} {a : κ × α} : a ∈ mapDelete m k ↔ a ∈ m ∧ a.1 ≠ k := by
  simp [mapDelete, List.mem_filter]

theorem mapGet_mapDelete_ne {κ α : Type} [DecidableEq κ] (m : List (κ × α))
    (k k2 : κ) (h : k2 ≠ k) : mapGet (mapDelete m k) k2 = mapGet m k2 := by
  induction m with
  | nil => simp [mapDelete, mapGet_nil]
  | cons p rest ih =>
    by_cases hk : p.1 = k
    · have hpk : ¬ (p.1 = k2) := fun hh => h (hh.symm.trans hk)
      rw [mapGet_cons, if_neg hpk]
      simpa [mapDelete, List.filter_cons, hk] using ih
    · rw [mapGet_cons]
      by_cases hp2 : p.1 = k2
      · simp [mapDelete, List.filter_cons, hk, mapGet_cons, hp2, h]
      · simp only [if_neg hp2]
        simpa [mapDelete, List.filter_cons, hk, mapGet_cons, hp2] using ih

theorem map_fst_mapSet {κ α : Type} [DecidableEq κ] (m : List (κ × α))
    (k : κ) (v w : α) (h : mapGet m k = some w) :
    (mapSet m k v).map Prod.fst = m.map Prod.fst := by
  induction m with
  | nil => simp [mapGet_nil] at h
  | cons p rest ih =>
    by_cases hk : p.1 = k
    · simp [mapSet, if_pos hk, hk]
    · rw [mapGet_cons, if_neg hk] at h
      simp only [mapSet, if_neg hk, List.map_cons]
      rw [ih h]

theorem updFun_self {κ α : Type} [DecidableEq κ] (f : κ → α) (k : κ) (v : α) :
    updFun f k v k = v := by
  simp [updFun]

theorem updFun_ne {κ α : Type} [DecidableEq κ] (f : κ → α) (k x : κ) (v : α)
    (h : x ≠ k) : updFun f k v x = f x := by
  simp [updFun, h]


namespace SJ

theorem checkRateLimit_muted (σ : ServerState) (sock now u : Nat)
    (h : σ.mutedUsers sock = some u) (hlt : now < u) :
    checkRateLimit σ sock now =
      (false, σ,
       [Out.statusMessage sock
         (spamWaitText (remainingMinutesOf (remainingSecondsOf u now)))]) := by
  simp [checkRateLimit, h, hlt]

theorem checkRateLimit_expired (σ : ServerState) (sock now u : Nat)
    (h : σ.mutedUsers sock = some u) (hge : ¬ now < u) :
    checkRateLimit σ sock now =
      rateLimitCore { σ with mutedUsers := updFun σ.mutedUsers sock none }
        sock now := by
  simp [checkRateLimit, h, hge]

theorem checkRateLimit_clear (σ : ServerState) (sock now : Nat)
    (h : σ.mutedUsers sock = none) :
    checkRateLimit σ sock now = rateLimitCore σ sock now := by
  simp [checkRateLimit, h]

theorem rateLimitCore_full (σ : ServerState) (sock now : Nat)
    (h : MAX_MESSAGES_PER_PERIOD ≤
      ((σ.messageLimits sock).filter
        (fun t => decide (now - t < PERIOD_SECONDS * 1000))).length) :
    rateLimitCore σ sock now =
      (false,
       { σ with mutedUsers :=
          updFun σ.mutedUsers sock (some (now + MUTE_DURATION_MS)) },
       [Out.statusMessage sock muteNoticeText]) := by
  simp [rateLimitCore, h]

theorem rateLimitCore_ok (σ : ServerState) (sock now : Nat)
    (h : ¬ MAX_MESSAGES_PER_PERIOD ≤
      ((σ.messageLimits sock).filter
        (fun t => decide (now - t < PERIOD_SECONDS * 1000))).length) :
    rateLimitCore σ sock now =
      (true,
       { σ with messageLimits := (updFun σ.messageLimits sock
          (lastN MAX_MESSAGES_PER_PERIOD
            (((σ.messageLimits sock).filter
              (fun t => decide (now - t < PERIOD_SECONDS * 1000))) ++
             [now]))) },
       []) := by
  simp [rateLimitCore, h]

theorem checkRateLimit_frame (σ : ServerState) (sock now : Nat) :
    (checkRateLimit σ sock now).2.1.onlineUsers = σ.onlineUsers ∧
    (checkRateLimit σ sock now).2.1.provinceChatHistory =
      σ.provinceChatHistory ∧
    (checkRateLimit σ sock now).2.1.privateChatHistory =
      σ.privateChatHistory := by
  cases hm : σ.mutedUsers sock with
  | none =>
    rw [checkRateLimit_clear σ sock now hm]
    by_cases h : MAX_MESSAGES_PER_PERIOD ≤
      ((σ.messageLimits sock).filter
        (fun t => decide (now - t < PERIOD_SECONDS * 1000))).length
    · rw [rateLimitCore_full σ sock now h]
      exact ⟨rfl, rfl, rfl⟩
    · rw [rateLimitCore_ok σ sock now h]
      exact ⟨rfl, rfl, rfl⟩
  | some u =>
    by_cases hu : now < u
    · rw [checkRateLimit_muted σ sock now u hm hu]
      exact ⟨rfl, rfl, rfl⟩
    · rw [checkRateLimit_expired σ sock now u hm hu]
      set σ2 : ServerState :=
        { σ with mutedUsers := updFun σ.mutedUsers sock none } with hσ2
      by_cases h : MAX_MESSAGES_PER_PERIOD ≤
        ((σ2.messageLimits sock).filter
          (fun t => decide (now - t < PERIOD_SECONDS * 1000))).length
      · rw [rateLimitCore_full σ2 sock now h]
        exact ⟨rfl, rfl, rfl⟩
      · rw [rateLimitCore_ok σ2 sock now h]
        exact ⟨rfl, rfl, rfl⟩

theorem checkRateLimit_false_out (σ : ServerState) (sock now : Nat)
    (h : (checkRateLimit σ sock now).1 = false) :
    ∃ txt, (checkRateLimit σ sock now).2.2 = [Out.statusMessage sock txt] := by
  cases hm : σ.mutedUsers sock with
  | none =>
    rw [checkRateLimit_clear σ sock now hm] at h ⊢
    by_cases hf : MAX_MESSAGES_PER_PERIOD ≤
      ((σ.messageLimits sock).filter
        (fun t => decide (now - t < PERIOD_SECONDS * 1000))).length
    · rw [rateLimitCore_full σ sock now hf]
      exact ⟨muteNoticeText, rfl⟩
    · rw [rateLimitCore_ok σ sock now hf] at h
      simp at h
  | some u =>
    by_cases hu : now < u
    · rw [checkRateLimit_muted σ sock now u hm hu]
      exact ⟨_, rfl⟩
    · rw [checkRateLimit_expired σ sock now u hm hu] at h ⊢
      set σ2 : ServerState :=
        { σ with mutedUsers := updFun σ.mutedUsers sock none } with hσ2
      by_cases hf : MAX_MESSAGES_PER_PERIOD ≤
        ((σ2.messageLimits sock).filter
          (fun t => decide (now - t < PERIOD_SECONDS * 1000))).length
      · rw [rateLimitCore_full σ2 sock now hf]
        exact ⟨muteNoticeText, rfl⟩
      · rw [rateLimitCore_ok σ2 sock now hf] at h
        simp at h

theorem checkRateLimit_true_out (σ : ServerState) (sock now : Nat)
    (h : (checkRateLimit σ sock now).1 = true) :
    (checkRateLimit σ sock now).2.2 = [] := by
  cases hm : σ.mutedUsers sock with
  | none =>
    rw [checkRateLimit_clear σ sock now hm] at h ⊢
    by_cases hf : MAX_MESSAGES_PER_PERIOD ≤
      ((σ.messageLimits sock).filter
        (fun t => decide (now - t < PERIOD_SECONDS * 1000))).length
    · rw [rateLimitCore_full σ sock now hf] at h
      simp at h
    · rw [rateLimitCore_ok σ sock now hf]
  | some u =>
    by_cases hu : now < u
    · rw [checkRateLimit_muted σ sock now u hm hu] at h
      simp at h
    · rw [checkRateLimit_expired σ sock now u hm hu] at h ⊢
      set σ2 : ServerState :=
        { σ with mutedUsers := updFun σ.mutedUsers sock none } with hσ2
      by_cases hf : MAX_MESSAGES_PER_PERIOD ≤
        ((σ2.messageLimits sock).filter
          (fun t => decide (now - t < PERIOD_SECONDS * 1000))).length
      · rw [rateLimitCore_full σ2 sock now hf] at h
        simp at h
      · rw [rateLimitCore_ok σ2 sock now hf]

end SJ

namespace SJ

/-- C3: with `MAX_MESSAGES_PER_PERIOD = 2` and a one-second period, a
connection with a clean rate state has its first two messages within one
second accepted, the third rejected with a transition to muted until
`now + MUTE_DURATION_MS` (one minute); every admit call before that
instant is rejected and leaves the state unchanged; and the first admit
call at or after it is accepted and resets the timestamp window. -/
theorem c3_rate_window (σ : ServerState) (sock t0 t1 t2 : Nat)
    (hml : σ.messageLimits sock = []) (hmu : σ.mutedUsers sock = none)
    (h01 : t0 ≤ t1) (h12 : t1 ≤ t2) (hwin : t2 - t0 < 1000) :
    (checkRateLimit σ sock t0).1 = true ∧
    (checkRateLimit (checkRateLimit σ sock t0).2.1 sock t1).1 = true ∧
    (checkRateLimit (checkRateLimit (checkRateLimit σ sock t0).2.1 sock
      t1).2.1 sock t2).1 = false ∧
    (let σ3 := (checkRateLimit (checkRateLimit (checkRateLimit σ sock
        t0).2.1 sock t1).2.1 sock t2).2.1
     σ3.mutedUsers sock = some (t2 + MUTE_DURATION_MS) ∧
     (∀ t, t < t2 + MUTE_DURATION_MS →
        (checkRateLimit σ3 sock t).1 = false ∧
        (checkRateLimit σ3 sock t).2.1 = σ3) ∧
     (∀ t, t2 + MUTE_DURATION_MS ≤ t →
        (checkRateLimit σ3 sock t).1 = true ∧
        (checkRateLimit σ3 sock t).2.1.messageLimits sock = [t] ∧
        (checkRateLimit σ3 sock t).2.1.mutedUsers sock = none)) := by
  have hd01 : t1 - t0 < 1000 := by omega
  have hd02 : t2 - t0 < 1000 := hwin
  have hd12 : t2 - t1 < 1000 := by omega
  have hMD : MUTE_DURATION_MS = 60000 := rfl
  -- first call, at t0
  have e1 : checkRateLimit σ sock t0 =
      (true, { σ with messageLimits := updFun σ.messageLimits sock [t0] },
       []) := by
    rw [checkRateLimit_clear σ sock t0 hmu, rateLimitCore_ok σ sock t0
      (by simp [hml, MAX_MESSAGES_PER_PERIOD])]
    simp [hml, lastN, MAX_MESSAGES_PER_PERIOD]
  set σ1 : ServerState :=
    { σ with messageLimits := updFun σ.messageLimits sock [t0] } with hσ1
  have h1ml : σ1.messageLimits sock = [t0] := by simp [hσ1, updFun]
  have h1mu : σ1.mutedUsers sock = none := hmu
  -- second call, at t1
  have e2 : checkRateLimit σ1 sock t1 =
      (true,
       { σ1 with messageLimits := updFun σ1.messageLimits sock [t0, t1] },
       []) := by
    rw [checkRateLimit_clear σ1 sock t1 h1mu, rateLimitCore_ok σ1 sock t1
      (by simp [updFun, MAX_MESSAGES_PER_PERIOD, PERIOD_SECONDS, hd01])]
    simp [updFun, lastN, PERIOD_SECONDS, MAX_MESSAGES_PER_PERIOD, hd01]
  set σ2 : ServerState :=
    { σ1 with messageLimits := updFun σ1.messageLimits sock [t0, t1] }
    with hσ2
  have h2ml : σ2.messageLimits sock = [t0, t1] := by simp [hσ2, updFun]
  have h2mu : σ2.mutedUsers sock = none := hmu
  -- third call, at t2
  have e3 : checkRateLimit σ2 sock t2 =
      (false,
       { σ2 with mutedUsers := (updFun σ2.mutedUsers sock
          (some (t2 + MUTE_DURATION_MS))) },
       [Out.statusMessage sock muteNoticeText]) := by
    rw [checkRateLimit_clear σ2 sock t2 h2mu, rateLimitCore_full σ2 sock t2
      (by rw [h2ml]; simp [MAX_MESSAGES_PER_PERIOD, PERIOD_SECONDS, hd02,
        hd12])]
  set σ3 : ServerState :=
    { σ2 with mutedUsers := (updFun σ2.mutedUsers sock
       (some (t2 + MUTE_DURATION_MS))) } with hσ3
  have h3ml : σ3.messageLimits sock = [t0, t1] := h2ml
  have h3mu : σ3.mutedUsers sock = some (t2 + MUTE_DURATION_MS) := by
    simp [hσ3, updFun]
  refine ⟨by simp [e1], by simp only [e1]; simp [e2], ?_, ?_⟩
  · simp only [e1, e2, e3]
  · simp only [e1, e2, e3]
    refine ⟨h3mu, ?_, ?_⟩
    · intro t ht
      rw [checkRateLimit_muted σ3 sock t (t2 + MUTE_DURATION_MS) h3mu ht]
      exact ⟨rfl, rfl⟩
    · intro t ht
      have hnm : ¬ t < t2 + MUTE_DURATION_MS := by omega
      rw [checkRateLimit_expired σ3 sock t (t2 + MUTE_DURATION_MS) h3mu hnm]
      have hx0 : ¬ t - t0 < 1000 := by omega
      have hx1 : ¬ t - t1 < 1000 := by omega
      have hok : ¬ MAX_MESSAGES_PER_PERIOD ≤
          ((({ σ3 with mutedUsers := (updFun σ3.mutedUsers sock
              none) } : ServerState).messageLimits sock).filter
            (fun x => decide (t - x < PERIOD_SECONDS * 1000))).length := by
        show ¬ MAX_MESSAGES_PER_PERIOD ≤
          ((σ3.messageLimits sock).filter
            (fun x => decide (t - x < PERIOD_SECONDS * 1000))).length
        rw [h3ml]
        simp [MAX_MESSAGES_PER_PERIOD, PERIOD_SECONDS, hx0, hx1]
      rw [rateLimitCore_ok _ sock t hok]
      refine ⟨rfl, ?_, ?_⟩
      · show updFun _ sock _ sock = [t]
        rw [updFun_self]
        show lastN MAX_MESSAGES_PER_PERIOD
          (((σ3.messageLimits sock).filter
            (fun x => decide (t - x < PERIOD_SECONDS * 1000))) ++ [t]) = [t]
        rw [h3ml]
        simp [PERIOD_SECONDS, hx0, hx1, lastN, MAX_MESSAGES_PER_PERIOD]
      · show (updFun σ3.mutedUsers sock none) sock = none
        rw [updFun_self]

end SJ

namespace SJ

/-- Witness for `c3_rate_window`: a fresh socket in the initial state
sending three messages at instant 0. -/
theorem c3_rate_window_witness :
    (checkRateLimit initialServerState 1 0).1 = true ∧
    (checkRateLimit (checkRateLimit initialServerState 1 0).2.1 1 0).1 =
      true ∧
    (checkRateLimit (checkRateLimit (checkRateLimit initialServerState 1
      0).2.1 1 0).2.1 1 0).1 = false ∧
    (let σ3 := (checkRateLimit (checkRateLimit (checkRateLimit
        initialServerState 1 0).2.1 1 0).2.1 1 0).2.1
     σ3.mutedUsers 1 = some (0 + MUTE_DURATION_MS) ∧
     (∀ t, t < 0 + MUTE_DURATION_MS →
        (checkRateLimit σ3 1 t).1 = false ∧
        (checkRateLimit σ3 1 t).2.1 = σ3) ∧
     (∀ t, 0 + MUTE_DURATION_MS ≤ t →
        (checkRateLimit σ3 1 t).1 = true ∧
        (checkRateLimit σ3 1 t).2.1.messageLimits 1 = [t] ∧
        (checkRateLimit σ3 1 t).2.1.mutedUsers 1 = none)) :=
  c3_rate_window initialServerState 1 0 0 0 rfl rfl (Nat.le_refl 0)
    (Nat.le_refl 0) (by decide)

/-- C7: the rate-limit/mute gate runs before any message is persisted or
routed.  Whenever `checkRateLimit` rejects, each of the four message
handlers returns the rate-limiter state and emissions unchanged: both
history buffers are untouched, the only emission is a single status
message to the sender, and while muted that status message carries the
remaining wait time. -/
theorem c7_rate_gate (sanitize : String → String) (σ : ServerState)
    (sock now : Nat) (hrej : (checkRateLimit σ sock now).1 = false) :
    (∃ txt, (checkRateLimit σ sock now).2.2 =
      [Out.statusMessage sock txt]) ∧
    (∀ u, σ.mutedUsers sock = some u → now < u →
      (checkRateLimit σ sock now).2.2 =
        [Out.statusMessage sock
          (spamWaitText (remainingMinutesOf (remainingSecondsOf u now)))]) ∧
    (checkRateLimit σ sock now).2.1.provinceChatHistory =
      σ.provinceChatHistory ∧
    (checkRateLimit σ sock now).2.1.privateChatHistory =
      σ.privateChatHistory ∧
    (∀ text, step sanitize σ (Ev.chatMessage sock text now) =
      ((checkRateLimit σ sock now).2.1, (checkRateLimit σ sock now).2.2)) ∧
    (∀ file, step sanitize σ (Ev.imageMessage sock file now) =
      ((checkRateLimit σ sock now).2.1, (checkRateLimit σ sock now).2.2)) ∧
    (∀ toNick text,
      step sanitize σ (Ev.privateMessage sock toNick text now) =
        ((checkRateLimit σ sock now).2.1,
         (checkRateLimit σ sock now).2.2)) ∧
    (∀ toNick file,
      step sanitize σ (Ev.privateImageMessage sock toNick file now) =
        ((checkRateLimit σ sock now).2.1,
         (checkRateLimit σ sock now).2.2)) := by
  refine ⟨checkRateLimit_false_out σ sock now hrej, ?_,
    (checkRateLimit_frame σ sock now).2.1,
    (checkRateLimit_frame σ sock now).2.2, ?_, ?_, ?_, ?_⟩
  · intro u hu hlt
    rw [checkRateLimit_muted σ sock now u hu hlt]
  · intro text
    simp [step, handleChatMessage, hrej]
  · intro file
    simp [step, handleImageMessage, hrej]
  · intro toNick text
    simp [step, handlePrivateMessage, hrej]
  · intro toNick file
    simp [step, handlePrivateImageMessage, hrej]

/-- Witness for `c7_rate_gate`: socket 1 muted until instant 100 sends at
instant 0. -/
theorem c7_rate_gate_witness :
    (∃ txt, (checkRateLimit mutedWitnessState 1 0).2.2 =
      [Out.statusMessage 1 txt]) ∧
    (∀ u, mutedWitnessState.mutedUsers 1 = some u → 0 < u →
      (checkRateLimit mutedWitnessState 1 0).2.2 =
        [Out.statusMessage 1
          (spamWaitText (remainingMinutesOf (remainingSecondsOf u 0)))]) ∧
    (checkRateLimit mutedWitnessState 1 0).2.1.provinceChatHistory =
      mutedWitnessState.provinceChatHistory ∧
    (checkRateLimit mutedWitnessState 1 0).2.1.privateChatHistory =
      mutedWitnessState.privateChatHistory ∧
    (∀ text, step id mutedWitnessState (Ev.chatMessage 1 text 0) =
      ((checkRateLimit mutedWitnessState 1 0).2.1,
       (checkRateLimit mutedWitnessState 1 0).2.2)) ∧
    (∀ file, step id mutedWitnessState (Ev.imageMessage 1 file 0) =
      ((checkRateLimit mutedWitnessState 1 0).2.1,
       (checkRateLimit mutedWitnessState 1 0).2.2)) ∧
    (∀ toNick text,
      step id mutedWitnessState (Ev.privateMessage 1 toNick text 0) =
        ((checkRateLimit mutedWitnessState 1 0).2.1,
         (checkRateLimit mutedWitnessState 1 0).2.2)) ∧
    (∀ toNick file,
      step id mutedWitnessState (Ev.privateImageMessage 1 toNick file 0) =
        ((checkRateLimit mutedWitnessState 1 0).2.1,
         (checkRateLimit mutedWitnessState 1 0).2.2)) :=
  c7_rate_gate id mutedWitnessState 1 0 rfl

end SJ

/-- C5: a successful direct text message is delivered exactly twice — once
to the recipient connection and once back to the sender connection — and
to no other connection, in both server variants. -/
theorem c5_direct_echo :
    (∀ (sanitize : String → String) (σ : SJ.ServerState) (sA : Nat)
       (uA : SJ.User) (toNick text : String) (sB : Nat) (uB : SJ.User)
       (now : Nat),
      (SJ.checkRateLimit σ sA now).1 = true →
      mapGet σ.onlineUsers sA = some uA →
      uA.nickname ≠ "" →
      σ.onlineUsers.find? (fun p => decide (p.2.nickname = toNick)) =
        some (sB, uB) →
      sB ≠ sA →
      (SJ.step sanitize σ (SJ.Ev.privateMessage sA toNick text now)).2 =
        [SJ.Out.privateMessage uB.socketId
          ⟨uA.nickname, uA.gender, sanitize text, now, uB.nickname, "text"⟩,
         SJ.Out.privateMessage sA
          ⟨uA.nickname, uA.gender, sanitize text, now, uB.nickname,
           "text"⟩]) ∧
    (∀ (τ : P0.P0State) (sA : Nat) (uA : P0.P0User) (toNick msgText : String)
       (sB now : Nat),
      mapGet τ.connectedUsers sA = some uA →
      mapGet τ.nicknameToSocketId toNick = some sB →
      sB ≠ sA →
      P0.step τ (P0.Ev.privateMessage sA toNick msgText now) =
        (τ, [P0.Out.privateMessage sB ⟨uA.nickname, toNick, msgText, now⟩,
             P0.Out.privateMessage sA
               ⟨uA.nickname, toNick, msgText, now⟩])) := by
  constructor
  · intro sanitize σ sA uA toNick text sB uB now hrl hA hAnick hfind hne
    have hfr := (SJ.checkRateLimit_frame σ sA now).1
    have hout := SJ.checkRateLimit_true_out σ sA now hrl
    simp [SJ.step, SJ.handlePrivateMessage, hrl, SJ.getSenderData, hfr, hA,
      hfind, hAnick, hout]
  · intro τ sA uA toNick msgText sB now hA hB hne
    simp [P0.step, P0.handlePrivateMessage, hA, hB]

/-- Witness for `c5_direct_echo`: ana and luis registered in region caba,
luis sends each variant a direct message to ana. -/
theorem c5_direct_echo_witness :
    (SJ.step id (SJ.run id SJ.initialServerState
        [SJ.Ev.register 1 (some "ana") (some "f") (some "caba") 0,
         SJ.Ev.register 2 (some "luis") (some "m") (some "caba") 1]).1
      (SJ.Ev.privateMessage 2 "ana" "hi" 10)).2 =
      [SJ.Out.privateMessage 1 ⟨"luis", "m", "hi", 10, "ana", "text"⟩,
       SJ.Out.privateMessage 2 ⟨"luis", "m", "hi", 10, "ana", "text"⟩] ∧
    P0.step (P0.run P0.initialP0State
        [P0.Ev.userInfo 1 (some "ana") (some "f") (some "caba"),
         P0.Ev.userInfo 2 (some "luis") (some "m") (some "caba")]).1
      (P0.Ev.privateMessage 2 "ana" "hola" 10) =
      ((P0.run P0.initialP0State
        [P0.Ev.userInfo 1 (some "ana") (some "f") (some "caba"),
         P0.Ev.userInfo 2 (some "luis") (some "m") (some "caba")]).1,
       [P0.Out.privateMessage 1 ⟨"luis", "ana", "hola", 10⟩,
        P0.Out.privateMessage 2 ⟨"luis", "ana", "hola", 10⟩]) := by
  constructor
  · exact c5_direct_echo.1 id _ 2 ⟨"luis", "m", "caba", 2, 1⟩ "ana" "hi" 1
      ⟨"ana", "f", "caba", 1, 0⟩ 10 (by decide) (by decide) (by decide)
      (by decide) (by decide)
  · exact c5_direct_echo.2 _ 2 ⟨2, "luis", "m", "caba"⟩ "ana" "hola" 1 10
      (by decide) (by decide) (by decide)

/-- Counterexample to C4: in server.js, a chat message from an
unregistered socket is not silently ignored — it is appended to the
`unknown` room history (attributed to the placeholder sender
`Desconocido`) and broadcast to that room. -/
theorem c4_counterexample :
    (SJ.run id SJ.initialServerState
      [SJ.Ev.chatMessage 1 "hola" 0]).1.provinceChatHistory "unknown" =
      [⟨"Desconocido", "other", "hola", 0, "unknown", "text"⟩] ∧
    (SJ.run id SJ.initialServerState [SJ.Ev.chatMessage 1 "hola" 0]).2 =
      [SJ.Out.chatMessage "unknown"
        ⟨"Desconocido", "other", "hola", 0, "unknown", "text"⟩] := by
  exact ⟨by decide, by decide⟩

/-- C4 as amended: in the part_000 variant, chat and private messages
from unregistered sockets are silently ignored (no emission, no state
change); in server.js they are not ignored — a room message from an
unregistered socket passing the rate gate is attributed to the
placeholder sender `Desconocido`, appended to the `unknown` room history
and broadcast to the `unknown` room, while the unregistered sender still
receives no notification. -/
theorem c4_unregistered_amended :
    (∀ (τ : P0.P0State) (sock : Nat) (text : String) (now : Nat),
      mapGet τ.connectedUsers sock = none →
      P0.step τ (P0.Ev.chatMessage sock text now) = (τ, [])) ∧
    (∀ (τ : P0.P0State) (sock : Nat) (toNick text : String) (now : Nat),
      mapGet τ.connectedUsers sock = none →
      P0.step τ (P0.Ev.privateMessage sock toNick text now) = (τ, [])) ∧
    (∀ (sanitize : String → String) (σ : SJ.ServerState) (sock : Nat)
       (text : String) (now : Nat),
      (SJ.checkRateLimit σ sock now).1 = true →
      mapGet σ.onlineUsers sock = none →
      (SJ.step sanitize σ
        (SJ.Ev.chatMessage sock text now)).1.provinceChatHistory "unknown" =
        σ.provinceChatHistory "unknown" ++
          [⟨"Desconocido", "other", sanitize text, now, "unknown",
            "text"⟩] ∧
      (SJ.step sanitize σ (SJ.Ev.chatMessage sock text now)).2 =
        [SJ.Out.chatMessage "unknown"
          ⟨"Desconocido", "other", sanitize text, now, "unknown",
           "text"⟩]) := by
  refine ⟨?_, ?_, ?_⟩
  · intro τ sock text now hnone
    simp [P0.step, P0.handleChatMessage, hnone]
  · intro τ sock toNick text now hnone
    simp [P0.step, P0.handlePrivateMessage, hnone]
  · intro sanitize σ sock text now hrl hnone
    have hfr := SJ.checkRateLimit_frame σ sock now
    have hout := SJ.checkRateLimit_true_out σ sock now hrl
    constructor
    · simp [SJ.step, SJ.handleChatMessage, hrl, SJ.getSenderData, hfr.1,
        hnone, updFun_self, hfr.2.1]
    · simp [SJ.step, SJ.handleChatMessage, hrl, SJ.getSenderData, hfr.1,
        hnone, hout]

/-- Witness for `c4_unregistered_amended`: unregistered socket 7 in the
empty state of each variant. -/
theorem c4_unregistered_witness :
    P0.step P0.initialP0State (P0.Ev.chatMessage 7 "hola" 0) =
      (P0.initialP0State, []) ∧
    P0.step P0.initialP0State (P0.Ev.privateMessage 7 "ana" "hola" 0) =
      (P0.initialP0State, []) ∧
    ((SJ.step id SJ.initialServerState
        (SJ.Ev.chatMessage 7 "hola" 0)).1.provinceChatHistory "unknown" =
      SJ.initialServerState.provinceChatHistory "unknown" ++
        [⟨"Desconocido", "other", "hola", 0, "unknown", "text"⟩] ∧
     (SJ.step id SJ.initialServerState (SJ.Ev.chatMessage 7 "hola" 0)).2 =
      [SJ.Out.chatMessage "unknown"
        ⟨"Desconocido", "other", "hola", 0, "unknown", "text"⟩]) :=
  ⟨c4_unregistered_amended.1 P0.initialP0State 7 "hola" 0 rfl,
   c4_unregistered_amended.2.1 P0.initialP0State 7 "ana" "hola" 0 rfl,
   c4_unregistered_amended.2.2 id SJ.initialServerState 7 "hola" 0 rfl rfl⟩

/-- Counterexample to C6: in server.js, a direct message whose target is
the sender's own nickname is not a no-op — it is persisted in the
self-pair history and delivered twice to the sender, with no status
message. -/
theorem c6_counterexample :
    (SJ.run id SJ.initialServerState
      [SJ.Ev.register 1 (some "ana") (some "f") (some "caba") 0,
       SJ.Ev.privateMessage 1 "ana" "hola" 5]).1.privateChatHistory
      "ana-ana" = [⟨"ana", "f", "hola", 5, "ana", "text"⟩] ∧
    (SJ.run id SJ.initialServerState
      [SJ.Ev.register 1 (some "ana") (some "f") (some "caba") 0,
       SJ.Ev.privateMessage 1 "ana" "hola" 5]).2 =
      [SJ.Out.infoAccepted 1,
       SJ.Out.userList [⟨"ana", "f", "caba", 1⟩],
       SJ.Out.privateMessage 1 ⟨"ana", "f", "hola", 5, "ana", "text"⟩,
       SJ.Out.privateMessage 1 ⟨"ana", "f", "hola", 5, "ana", "text"⟩] := by
  exact ⟨by decide, by decide⟩

/-- C6 as amended: when the target nickname resolves to no active
profile, the message is delivered to no one and not persisted; part_000
notifies the sender via a status message while server.js drops it with no
notification.  A message addressed to the sender's own nickname is not
special-cased: it resolves to the sender and is delivered back twice (in
server.js it is also persisted in the self-pair history). -/
theorem c6_recipient_not_found_amended :
    (∀ (sanitize : String → String) (σ : SJ.ServerState) (sock : Nat)
       (toNick text : String) (now : Nat),
      (SJ.checkRateLimit σ sock now).1 = true →
      σ.onlineUsers.find? (fun p => decide (p.2.nickname = toNick)) =
        none →
      (SJ.step sanitize σ (SJ.Ev.privateMessage sock toNick text
        now)).1.privateChatHistory = σ.privateChatHistory ∧
      (SJ.step sanitize σ (SJ.Ev.privateMessage sock toNick text
        now)).1.provinceChatHistory = σ.provinceChatHistory ∧
      (SJ.step sanitize σ (SJ.Ev.privateMessage sock toNick text
        now)).2 = []) ∧
    (∀ (τ : P0.P0State) (sock : Nat) (uA : P0.P0User)
       (toNick text : String) (now : Nat),
      mapGet τ.connectedUsers sock = some uA →
      mapGet τ.nicknameToSocketId toNick = none →
      P0.step τ (P0.Ev.privateMessage sock toNick text now) =
        (τ, [P0.Out.statusToSock sock (P0.notFoundText toNick)])) ∧
    (∀ (sanitize : String → String) (σ : SJ.ServerState) (sA : Nat)
       (uA : SJ.User) (text : String) (now : Nat),
      (SJ.checkRateLimit σ sA now).1 = true →
      mapGet σ.onlineUsers sA = some uA →
      uA.nickname ≠ "" →
      σ.onlineUsers.find? (fun p => decide (p.2.nickname = uA.nickname)) =
        some (sA, uA) →
      (SJ.step sanitize σ (SJ.Ev.privateMessage sA uA.nickname text
        now)).2 =
        [SJ.Out.privateMessage uA.socketId
          ⟨uA.nickname, uA.gender, sanitize text, now, uA.nickname,
           "text"⟩,
         SJ.Out.privateMessage sA
          ⟨uA.nickname, uA.gender, sanitize text, now, uA.nickname,
           "text"⟩] ∧
      (SJ.step sanitize σ (SJ.Ev.privateMessage sA uA.nickname text
        now)).1.privateChatHistory
          (SJ.getPrivateChatId uA.nickname uA.nickname) =
        σ.privateChatHistory
          (SJ.getPrivateChatId uA.nickname uA.nickname) ++
        [⟨uA.nickname, uA.gender, sanitize text, now, uA.nickname,
          "text"⟩]) := by
  refine ⟨?_, ?_, ?_⟩
  · intro sanitize σ sock toNick text now hrl hfind
    have hfr := SJ.checkRateLimit_frame σ sock now
    have hout := SJ.checkRateLimit_true_out σ sock now hrl
    refine ⟨?_, ?_, ?_⟩
    · simp [SJ.step, SJ.handlePrivateMessage, hrl, hfr.1, hfind, hfr.2.2]
    · simp [SJ.step, SJ.handlePrivateMessage, hrl, hfr.1, hfind, hfr.2.1]
    · simp [SJ.step, SJ.handlePrivateMessage, hrl, hfr.1, hfind, hout]
  · intro τ sock uA toNick text now hA hB
    simp [P0.step, P0.handlePrivateMessage, hA, hB]
  · intro sanitize σ sA uA text now hrl hA hAnick hfind
    have hfr := SJ.checkRateLimit_frame σ sA now
    have hout := SJ.checkRateLimit_true_out σ sA now hrl
    constructor
    · simp [SJ.step, SJ.handlePrivateMessage, hrl, SJ.getSenderData,
        hfr.1, hA, hfind, hAnick, hout]
    · simp [SJ.step, SJ.handlePrivateMessage, hrl, SJ.getSenderData,
        hfr.1, hA, hfind, hAnick, hfr.2.2, updFun_self]

/-- Witness for `c6_recipient_not_found_amended`: ana registered in each
variant; a message to the absent nickname bob, and a message from ana to
herself. -/
theorem c6_recipient_not_found_witness :
    ((SJ.step id (SJ.run id SJ.initialServerState
        [SJ.Ev.register 1 (some "ana") (some "f") (some "caba") 0]).1
      (SJ.Ev.privateMessage 1 "bob" "hola" 5)).1.privateChatHistory =
      (SJ.run id SJ.initialServerState
        [SJ.Ev.register 1 (some "ana") (some "f") (some "caba")
          0]).1.privateChatHistory ∧
     (SJ.step id (SJ.run id SJ.initialServerState
        [SJ.Ev.register 1 (some "ana") (some "f") (some "caba") 0]).1
      (SJ.Ev.privateMessage 1 "bob" "hola" 5)).1.provinceChatHistory =
      (SJ.run id SJ.initialServerState
        [SJ.Ev.register 1 (some "ana") (some "f") (some "caba")
          0]).1.provinceChatHistory ∧
     (SJ.step id (SJ.run id SJ.initialServerState
        [SJ.Ev.register 1 (some "ana") (some "f") (some "caba") 0]).1
      (SJ.Ev.privateMessage 1 "bob" "hola" 5)).2 = []) ∧
    P0.step (P0.run P0.initialP0State
        [P0.Ev.userInfo 1 (some "ana") (some "f") (some "caba")]).1
      (P0.Ev.privateMessage 1 "bob" "hola" 5) =
      ((P0.run P0.initialP0State
        [P0.Ev.userInfo 1 (some "ana") (some "f") (some "caba")]).1,
       [P0.Out.statusToSock 1 (P0.notFoundText "bob")]) ∧
    ((SJ.step id (SJ.run id SJ.initialServerState
        [SJ.Ev.register 1 (some "ana") (some "f") (some "caba") 0]).1
      (SJ.Ev.privateMessage 1 "ana" "hola" 5)).2 =
      [SJ.Out.privateMessage 1 ⟨"ana", "f", "hola", 5, "ana", "text"⟩,
       SJ.Out.privateMessage 1 ⟨"ana", "f", "hola", 5, "ana", "text"⟩] ∧
     (SJ.step id (SJ.run id SJ.initialServerState
        [SJ.Ev.register 1 (some "ana") (some "f") (some "caba") 0]).1
      (SJ.Ev.privateMessage 1 "ana" "hola" 5)).1.privateChatHistory
        (SJ.getPrivateChatId "ana" "ana") =
      (SJ.run id SJ.initialServerState
        [SJ.Ev.register 1 (some "ana") (some "f") (some "caba")
          0]).1.privateChatHistory (SJ.getPrivateChatId "ana" "ana") ++
      [⟨"ana", "f", "hola", 5, "ana", "text"⟩]) := by
  refine ⟨c6_recipient_not_found_amended.1 id _ 1 "bob" "hola" 5
    (by decide) (by decide), ?_, ?_⟩
  · exact c6_recipient_not_found_amended.2.1 _ 1 ⟨1, "ana", "f", "caba"⟩
      "bob" "hola" 5 (by decide) (by decide)
  · exact c6_recipient_not_found_amended.2.2 id _ 1
      ⟨"ana", "f", "caba", 1, 0⟩ "hola" 5 (by decide) (by decide)
      (by decide) (by decide)

/-- Counterexample to C2: in server.js, a connection that re-registers
with its own current nickname receives `nickname in use` and is
disconnected (its profile is even destroyed), instead of an idempotent
update. -/
theorem c2_counterexample :
    (SJ.run id SJ.initialServerState
      [SJ.Ev.register 1 (some "ana") (some "f") (some "caba") 0,
       SJ.Ev.register 1 (some "ana") (some "f") (some "caba") 5]).2 =
      [SJ.Out.infoAccepted 1,
       SJ.Out.userList [⟨"ana", "f", "caba", 1⟩],
       SJ.Out.nicknameInUse 1 (nicknameInUseText "ana"),
       SJ.Out.disconnect 1,
       SJ.Out.userList []] := by
  decide

/-- C2 as amended: in server.js, `register` emits `nickname in use` iff
any online profile — including the caller's own — has the same
case-insensitive nickname, so a same-connection re-register with its own
nickname is rejected.  In part_000, `nickname in use` is emitted iff the
nickname is mapped to a different socket id, and a re-register of the
same connection with its current nickname never errors, emits nothing,
and never duplicates the roster entry. -/
theorem c2_register_amended :
    (∀ (sanitize : String → String) (σ : SJ.ServerState) (sock : Nat)
       (n g pv : Option String) (now : Nat),
      (∃ q ∈ σ.onlineUsers, jsToLowerCase q.2.nickname =
        jsToLowerCase (sanitizeOpt sanitize n)) ↔
      (∃ t, SJ.Out.nicknameInUse sock t ∈
        (SJ.step sanitize σ (SJ.Ev.register sock n g pv now)).2)) ∧
    (∀ (τ : P0.P0State) (sock : Nat) (n sx pv : String),
      n ≠ "" → sx ≠ "" → pv ≠ "" →
      ((∃ s2, mapGet τ.nicknameToSocketId n = some s2 ∧ s2 ≠ sock) ↔
       (∃ t, P0.Out.nicknameInUse sock t ∈
         (P0.step τ
           (P0.Ev.userInfo sock (some n) (some sx) (some pv))).2))) ∧
    (∀ (τ : P0.P0State) (sock : Nat) (uA : P0.P0User) (sx pv : String),
      uA.nickname ≠ "" → sx ≠ "" → pv ≠ "" →
      mapGet τ.connectedUsers sock = some uA →
      mapGet τ.nicknameToSocketId uA.nickname = some sock →
      (P0.step τ (P0.Ev.userInfo sock (some uA.nickname) (some sx)
        (some pv))).2 = [] ∧
      (P0.step τ (P0.Ev.userInfo sock (some uA.nickname) (some sx)
        (some pv))).1.connectedUsers.map Prod.fst =
        τ.connectedUsers.map Prod.fst) := by
  refine ⟨?_, ?_, ?_⟩
  · intro sanitize σ sock n g pv now
    cases hf : σ.onlineUsers.find?
        (fun p => decide (jsToLowerCase p.2.nickname =
          jsToLowerCase (sanitizeOpt sanitize n))) with
    | none =>
      constructor
      · rintro ⟨q, hq, hlow⟩
        rw [List.find?_eq_none] at hf
        exact absurd (decide_eq_true hlow) (hf q hq)
      · rintro ⟨t, ht⟩
        simp only [SJ.step, SJ.handleRegister, hf] at ht
        split at ht <;> simp at ht
    | some q =>
      constructor
      · intro _
        exact ⟨nicknameInUseText (sanitizeOpt sanitize n),
          by simp [SJ.step, SJ.handleRegister, hf]⟩
      · intro _
        have hp := List.find?_some hf
        exact ⟨q, List.mem_of_find?_eq_some hf, of_decide_eq_true hp⟩
  · intro τ sock n sx pv hn hsx hpv
    have hfal : (P0.falsyStr (some n) || P0.falsyStr (some sx) ||
        P0.falsyStr (some pv)) = false := by
      simp [P0.falsyStr, hn, hsx, hpv]
    have hstep : P0.step τ
        (P0.Ev.userInfo sock (some n) (some sx) (some pv)) =
        P0.userInfoMain τ sock n sx pv := by
      simp only [P0.step, P0.handleUserInfo, hfal]
      rfl
    rw [hstep]
    cases hm : mapGet τ.nicknameToSocketId n with
    | none =>
      constructor
      · rintro ⟨s2, hs2, hne⟩
        simp [hm] at hs2
      · rintro ⟨t, ht⟩
        simp [P0.userInfoMain, hm] at ht
    | some s2 =>
      by_cases hs : s2 = sock
      · subst hs
        constructor
        · rintro ⟨s3, hs3, hne3⟩
          exact absurd (Option.some.inj hs3).symm hne3
        · rintro ⟨t, ht⟩
          exfalso
          simp only [P0.userInfoMain, hm] at ht
          rw [if_neg (fun hcon => hcon rfl)] at ht
          rcases hmu : mapGet τ.connectedUsers s2 with _ | u
          · rw [hmu] at ht
            simp at ht
          · rw [hmu] at ht
            split at ht <;> first
              | (split at ht <;> simp at ht)
              | simp at ht
      · constructor
        · intro _
          exact ⟨nicknameInUseText n, by simp [P0.userInfoMain, hm, hs]⟩
        · intro _
          exact ⟨s2, rfl, hs⟩
  · intro τ sock uA sx pv hn hsx hpv hA hB
    have hfal : (P0.falsyStr (some uA.nickname) || P0.falsyStr (some sx) ||
        P0.falsyStr (some pv)) = false := by
      simp [P0.falsyStr, hn, hsx, hpv]
    have hstep : P0.step τ (P0.Ev.userInfo sock (some uA.nickname)
        (some sx) (some pv)) =
        P0.userInfoMain τ sock uA.nickname sx pv := by
      simp only [P0.step, P0.handleUserInfo, hfal]
      rfl
    rw [hstep]
    by_cases hd : uA.sex ≠ sx ∨ uA.province ≠ pv
    · constructor
      · simp [P0.userInfoMain, hB, hA, hd]
      · have husers : (P0.userInfoMain τ sock uA.nickname sx
            pv).1.connectedUsers =
            mapSet τ.connectedUsers sock ⟨sock, uA.nickname, sx, pv⟩ := by
          simp [P0.userInfoMain, hB, hA, hd]
        rw [husers]
        exact map_fst_mapSet τ.connectedUsers sock _ uA hA
    · constructor
      · simp [P0.userInfoMain, hB, hA, hd]
      · simp [P0.userInfoMain, hB, hA, hd]

/-- Witness for `c2_register_amended`: ana registered in each variant; a
second socket tries the nickname (case-varied for server.js), and ana's
socket re-registers its own nickname in part_000. -/
theorem c2_register_witness :
    ((∃ q ∈ (SJ.run id SJ.initialServerState
        [SJ.Ev.register 1 (some "ana") (some "f") (some "caba")
          0]).1.onlineUsers,
       jsToLowerCase q.2.nickname =
         jsToLowerCase (sanitizeOpt id (some "Ana"))) ↔
     (∃ t, SJ.Out.nicknameInUse 2 t ∈
       (SJ.step id (SJ.run id SJ.initialServerState
          [SJ.Ev.register 1 (some "ana") (some "f") (some "caba") 0]).1
         (SJ.Ev.register 2 (some "Ana") (some "m") (some "caba")
           5)).2)) ∧
    ((∃ s2, mapGet (P0.run P0.initialP0State
        [P0.Ev.userInfo 1 (some "ana") (some "f")
          (some "caba")]).1.nicknameToSocketId "ana" = some s2 ∧
        s2 ≠ 2) ↔
     (∃ t, P0.Out.nicknameInUse 2 t ∈
       (P0.step (P0.run P0.initialP0State
          [P0.Ev.userInfo 1 (some "ana") (some "f") (some "caba")]).1
         (P0.Ev.userInfo 2 (some "ana") (some "m") (some "caba"))).2)) ∧
    ((P0.step (P0.run P0.initialP0State
        [P0.Ev.userInfo 1 (some "ana") (some "f") (some "caba")]).1
       (P0.Ev.userInfo 1 (some "ana") (some "f") (some "caba"))).2 =
      [] ∧
     (P0.step (P0.run P0.initialP0State
        [P0.Ev.userInfo 1 (some "ana") (some "f") (some "caba")]).1
       (P0.Ev.userInfo 1 (some "ana") (some "f")
         (some "caba"))).1.connectedUsers.map Prod.fst =
      (P0.run P0.initialP0State
        [P0.Ev.userInfo 1 (some "ana") (some "f")
          (some "caba")]).1.connectedUsers.map Prod.fst) :=
  ⟨c2_register_amended.1 id _ 2 (some "Ana") (some "m") (some "caba") 5,
   c2_register_amended.2.1 _ 2 "ana" "m" "caba" (by decide) (by decide)
     (by decide),
   c2_register_amended.2.2 _ 1 ⟨1, "ana", "f", "caba"⟩ "f" "caba"
     (by decide) (by decide) (by decide) (by decide) (by decide)⟩

/-- Counterexample to C9: in server.js, a registration with all required
fields missing is not rejected — a profile with empty nickname, gender
and province is created, `info accepted` is sent, and the connection is
not closed. -/
theorem c9_counterexample :
    (SJ.step id SJ.initialServerState
      (SJ.Ev.register 1 none none none 0)).1.onlineUsers =
      [(1, ⟨"", "", "", 1, 0⟩)] ∧
    (SJ.step id SJ.initialServerState
      (SJ.Ev.register 1 none none none 0)).2 =
      [SJ.Out.infoAccepted 1, SJ.Out.userList [⟨"", "", "", 1⟩]] := by
  exact ⟨by decide, by decide⟩

/-- C9 as amended: the part_000 variant validates the three required
fields — on any missing (or empty) field it notifies the client and
forcibly closes the connection, creating no profile; server.js performs
no such validation, so a registration with missing fields proceeds as a
normal registration with empty-string fields (subject only to the
nickname-in-use check), creating a profile, emitting `info accepted` and
never disconnecting. -/
theorem c9_incomplete_registration_amended :
    (∀ (τ : P0.P0State) (sock : Nat) (n sx pv : Option String),
      (P0.falsyStr n || P0.falsyStr sx || P0.falsyStr pv) = true →
      mapGet τ.connectedUsers sock = none →
      P0.step τ (P0.Ev.userInfo sock n sx pv) =
        (τ, [P0.Out.statusToSock sock P0.incompleteInfoText,
             P0.Out.disconnect sock])) ∧
    (∀ (sanitize : String → String) (σ : SJ.ServerState) (sock now : Nat),
      σ.onlineUsers.find?
        (fun p => decide (jsToLowerCase p.2.nickname =
          jsToLowerCase (sanitizeOpt sanitize none))) = none →
      (SJ.step sanitize σ
        (SJ.Ev.register sock none none none now)).1.onlineUsers =
        mapSet σ.onlineUsers sock ⟨"", "", "", sock, now⟩ ∧
      SJ.Out.infoAccepted sock ∈
        (SJ.step sanitize σ (SJ.Ev.register sock none none none now)).2 ∧
      (∀ s, SJ.Out.disconnect s ∉
        (SJ.step sanitize σ
          (SJ.Ev.register sock none none none now)).2)) := by
  constructor
  · intro τ sock n sx pv hfal hnone
    simp only [P0.step, P0.handleUserInfo, hfal, if_true]
    simp [P0.incompleteBranch, P0.handleDisconnect, hnone]
  · intro sanitize σ sock now hf
    have hf2 : σ.onlineUsers.find?
        (fun p => decide (jsToLowerCase p.2.nickname =
          jsToLowerCase "")) = none := hf
    refine ⟨?_, ?_, ?_⟩
    · simp [SJ.step, SJ.handleRegister, hf2, sanitizeOpt]
    · simp [SJ.step, SJ.handleRegister, hf2, sanitizeOpt]
    · intro s
      simp only [SJ.step, SJ.handleRegister, sanitizeOpt, hf2]
      split <;> simp

/-- Witness for `c9_incomplete_registration_amended`: a registration with
no fields from a fresh socket in the empty state of each variant. -/
theorem c9_incomplete_registration_witness :
    P0.step P0.initialP0State (P0.Ev.userInfo 1 none (some "f")
      (some "caba")) =
      (P0.initialP0State,
       [P0.Out.statusToSock 1 P0.incompleteInfoText,
        P0.Out.disconnect 1]) ∧
    ((SJ.step id SJ.initialServerState
        (SJ.Ev.register 1 none none none 0)).1.onlineUsers =
      mapSet SJ.initialServerState.onlineUsers 1 ⟨"", "", "", 1, 0⟩ ∧
     SJ.Out.infoAccepted 1 ∈
      (SJ.step id SJ.initialServerState
        (SJ.Ev.register 1 none none none 0)).2 ∧
     (∀ s, SJ.Out.disconnect s ∉
       (SJ.step id SJ.initialServerState
         (SJ.Ev.register 1 none none none 0)).2)) :=
  ⟨c9_incomplete_registration_amended.1 P0.initialP0State 1 none
    (some "f") (some "caba") rfl rfl,
   c9_incomplete_registration_amended.2 id SJ.initialServerState 1 0 rfl⟩

/-- C10: every user-supplied text field that server.js stores or
broadcasts goes through the sanitizer first — the registered profile
stores the sanitized nickname, gender and province; room and direct text
messages store and deliver the sanitized body; image payloads are
forwarded unsanitized. -/
theorem c10_sanitization :
    (∀ (sanitize : String → String) (σ : SJ.ServerState) (sock : Nat)
       (n g pv : String) (now : Nat),
      σ.onlineUsers.find?
        (fun p => decide (jsToLowerCase p.2.nickname =
          jsToLowerCase (sanitizeOpt sanitize (some n)))) = none →
      (SJ.step sanitize σ (SJ.Ev.register sock (some n) (some g)
        (some pv) now)).1.onlineUsers =
        mapSet σ.onlineUsers sock
          ⟨sanitize n, sanitize g, sanitize pv, sock, now⟩) ∧
    (∀ (sanitize : String → String) (σ : SJ.ServerState) (sock : Nat)
       (text : String) (now : Nat) (u : SJ.User),
      (SJ.checkRateLimit σ sock now).1 = true →
      mapGet σ.onlineUsers sock = some u →
      (SJ.step sanitize σ (SJ.Ev.chatMessage sock text
        now)).1.provinceChatHistory u.province =
        σ.provinceChatHistory u.province ++
          [⟨u.nickname, u.gender, sanitize text, now, u.province,
            "text"⟩] ∧
      (SJ.step sanitize σ (SJ.Ev.chatMessage sock text now)).2 =
        [SJ.Out.chatMessage u.province
          ⟨u.nickname, u.gender, sanitize text, now, u.province,
           "text"⟩]) ∧
    (∀ (sanitize : String → String) (σ : SJ.ServerState) (sock : Nat)
       (file : String) (now : Nat) (u : SJ.User),
      (SJ.checkRateLimit σ sock now).1 = true →
      mapGet σ.onlineUsers sock = some u →
      (SJ.step sanitize σ (SJ.Ev.imageMessage sock file
        now)).1.provinceChatHistory u.province =
        σ.provinceChatHistory u.province ++
          [⟨u.nickname, u.gender, file, now, u.province, "image"⟩] ∧
      (SJ.step sanitize σ (SJ.Ev.imageMessage sock file now)).2 =
        [SJ.Out.chatMessage u.province
          ⟨u.nickname, u.gender, file, now, u.province, "image"⟩]) ∧
    (∀ (sanitize : String → String) (σ : SJ.ServerState) (sA : Nat)
       (uA : SJ.User) (toNick text : String) (sB : Nat) (uB : SJ.User)
       (now : Nat),
      (SJ.checkRateLimit σ sA now).1 = true →
      mapGet σ.onlineUsers sA = some uA →
      uA.nickname ≠ "" →
      σ.onlineUsers.find? (fun p => decide (p.2.nickname = toNick)) =
        some (sB, uB) →
      (SJ.step sanitize σ (SJ.Ev.privateMessage sA toNick text
        now)).1.privateChatHistory
          (SJ.getPrivateChatId uA.nickname uB.nickname) =
        σ.privateChatHistory
          (SJ.getPrivateChatId uA.nickname uB.nickname) ++
          [⟨uA.nickname, uA.gender, sanitize text, now, uB.nickname,
            "text"⟩] ∧
      (SJ.step sanitize σ (SJ.Ev.privateMessage sA toNick text now)).2 =
        [SJ.Out.privateMessage uB.socketId
          ⟨uA.nickname, uA.gender, sanitize text, now, uB.nickname,
           "text"⟩,
         SJ.Out.privateMessage sA
          ⟨uA.nickname, uA.gender, sanitize text, now, uB.nickname,
           "text"⟩]) ∧
    (∀ (sanitize : String → String) (σ : SJ.ServerState) (sA : Nat)
       (uA : SJ.User) (toNick file : String) (sB : Nat) (uB : SJ.User)
       (now : Nat),
      (SJ.checkRateLimit σ sA now).1 = true →
      mapGet σ.onlineUsers sA = some uA →
      uA.nickname ≠ "" →
      σ.onlineUsers.find? (fun p => decide (p.2.nickname = toNick)) =
        some (sB, uB) →
      (SJ.step sanitize σ (SJ.Ev.privateImageMessage sA toNick file
        now)).2 =
        [SJ.Out.privateMessage uB.socketId
          ⟨uA.nickname, uA.gender, file, now, uB.nickname, "image"⟩,
         SJ.Out.privateMessage sA
          ⟨uA.nickname, uA.gender, file, now, uB.nickname, "image"⟩]) := by
  refine ⟨?_, ?_, ?_, ?_, ?_⟩
  · intro sanitize σ sock n g pv now hf
    have hf2 : σ.onlineUsers.find?
        (fun p => decide (jsToLowerCase p.2.nickname =
          jsToLowerCase (sanitize n))) = none := hf
    simp [SJ.step, SJ.handleRegister, hf2, sanitizeOpt]
  · intro sanitize σ sock text now u hrl hu
    have hfr := SJ.checkRateLimit_frame σ sock now
    have hout := SJ.checkRateLimit_true_out σ sock now hrl
    constructor
    · simp [SJ.step, SJ.handleChatMessage, hrl, SJ.getSenderData, hfr.1,
        hu, hfr.2.1, updFun_self]
    · simp [SJ.step, SJ.handleChatMessage, hrl, SJ.getSenderData, hfr.1,
        hu, hout]
  · intro sanitize σ sock file now u hrl hu
    have hfr := SJ.checkRateLimit_frame σ sock now
    have hout := SJ.checkRateLimit_true_out σ sock now hrl
    constructor
    · simp [SJ.step, SJ.handleImageMessage, hrl, SJ.getSenderData, hfr.1,
        hu, hfr.2.1, updFun_self]
    · simp [SJ.step, SJ.handleImageMessage, hrl, SJ.getSenderData, hfr.1,
        hu, hout]
  · intro sanitize σ sA uA toNick text sB uB now hrl hA hAnick hfind
    have hfr := SJ.checkRateLimit_frame σ sA now
    have hout := SJ.checkRateLimit_true_out σ sA now hrl
    constructor
    · simp [SJ.step, SJ.handlePrivateMessage, hrl, SJ.getSenderData,
        hfr.1, hA, hfind, hAnick, hfr.2.2, updFun_self]
    · simp [SJ.step, SJ.handlePrivateMessage, hrl, SJ.getSenderData,
        hfr.1, hA, hfind, hAnick, hout]
  · intro sanitize σ sA uA toNick file sB uB now hrl hA hAnick hfind
    have hfr := SJ.checkRateLimit_frame σ sA now
    have hout := SJ.checkRateLimit_true_out σ sA now hrl
    simp [SJ.step, SJ.handlePrivateImageMessage, hrl, SJ.getSenderData,
      hfr.1, hA, hfind, hAnick, hout]

/-- Witness for `c10_sanitization`: concrete registration, room text and
image messages, and direct text and image messages. -/
theorem c10_sanitization_witness :
    (SJ.step id SJ.initialServerState (SJ.Ev.register 1 (some "ana")
      (some "f") (some "caba") 0)).1.onlineUsers =
      mapSet SJ.initialServerState.onlineUsers 1
        ⟨id "ana", id "f", id "caba", 1, 0⟩ ∧
    (SJ.step id (SJ.run id SJ.initialServerState
        [SJ.Ev.register 1 (some "ana") (some "f") (some "caba") 0]).1
      (SJ.Ev.chatMessage 1 "hola" 5)).1.provinceChatHistory "caba" =
      (SJ.run id SJ.initialServerState
        [SJ.Ev.register 1 (some "ana") (some "f") (some "caba")
          0]).1.provinceChatHistory "caba" ++
        [⟨"ana", "f", id "hola", 5, "caba", "text"⟩] ∧
    (SJ.step id (SJ.run id SJ.initialServerState
        [SJ.Ev.register 1 (some "ana") (some "f") (some "caba") 0]).1
      (SJ.Ev.imageMessage 1 "IMGDATA" 5)).1.provinceChatHistory "caba" =
      (SJ.run id SJ.initialServerState
        [SJ.Ev.register 1 (some "ana") (some "f") (some "caba")
          0]).1.provinceChatHistory "caba" ++
        [⟨"ana", "f", "IMGDATA", 5, "caba", "image"⟩] ∧
    (SJ.step id (SJ.run id SJ.initialServerState
        [SJ.Ev.register 1 (some "ana") (some "f") (some "caba") 0,
         SJ.Ev.register 2 (some "luis") (some "m") (some "caba") 1]).1
      (SJ.Ev.privateMessage 2 "ana" "hi" 10)).1.privateChatHistory
        (SJ.getPrivateChatId "luis" "ana") =
      (SJ.run id SJ.initialServerState
        [SJ.Ev.register 1 (some "ana") (some "f") (some "caba") 0,
         SJ.Ev.register 2 (some "luis") (some "m") (some "caba")
           1]).1.privateChatHistory (SJ.getPrivateChatId "luis" "ana") ++
        [⟨"luis", "m", id "hi", 10, "ana", "text"⟩] ∧
    (SJ.step id (SJ.run id SJ.initialServerState
        [SJ.Ev.register 1 (some "ana") (some "f") (some "caba") 0,
         SJ.Ev.register 2 (some "luis") (some "m") (some "caba") 1]).1
      (SJ.Ev.privateImageMessage 2 "ana" "IMGDATA" 10)).2 =
      [SJ.Out.privateMessage 1
        ⟨"luis", "m", "IMGDATA", 10, "ana", "image"⟩,
       SJ.Out.privateMessage 2
        ⟨"luis", "m", "IMGDATA", 10, "ana", "image"⟩] :=
  ⟨c10_sanitization.1 id SJ.initialServerState 1 "ana" "f" "caba" 0
     (by decide),
   (c10_sanitization.2.1 id _ 1 "hola" 5 ⟨"ana", "f", "caba", 1, 0⟩
     (by decide) (by decide)).1,
   (c10_sanitization.2.2.1 id _ 1 "IMGDATA" 5 ⟨"ana", "f", "caba", 1, 0⟩
     (by decide) (by decide)).1,
   (c10_sanitization.2.2.2.1 id _ 2 ⟨"luis", "m", "caba", 2, 1⟩ "ana"
     "hi" 1 ⟨"ana", "f", "caba", 1, 0⟩ 10 (by decide) (by decide)
     (by decide) (by decide)).1,
   c10_sanitization.2.2.2.2 id _ 2 ⟨"luis", "m", "caba", 2, 1⟩ "ana"
     "IMGDATA" 1 ⟨"ana", "f", "caba", 1, 0⟩ 10 (by decide) (by decide)
     (by decide) (by decide)⟩

namespace SJ

theorem handleChatMessage_onlineUsers (sanitize : String → String)
    (σ : ServerState) (sock : Nat) (text : String) (now : Nat) :
    (handleChatMessage sanitize σ sock text now).1.onlineUsers =
      σ.onlineUsers := by
  have hfr := (checkRateLimit_frame σ sock now).1
  simp only [handleChatMessage]
  split
  · exact hfr
  · simpa using hfr

theorem handleImageMessage_onlineUsers (σ : ServerState) (sock : Nat)
    (file : String) (now : Nat) :
    (handleImageMessage σ sock file now).1.onlineUsers = σ.onlineUsers := by
  have hfr := (checkRateLimit_frame σ sock now).1
  simp only [handleImageMessage]
  split
  · exact hfr
  · simpa using hfr

theorem handlePrivateMessage_onlineUsers (sanitize : String → String)
    (σ : ServerState) (sock : Nat) (toNick text : String) (now : Nat) :
    (handlePrivateMessage sanitize σ sock toNick text now).1.onlineUsers =
      σ.onlineUsers := by
  have hfr := (checkRateLimit_frame σ sock now).1
  simp only [handlePrivateMessage]
  split
  · exact hfr
  · split
    · exact hfr
    · split
      · exact hfr
      · simpa using hfr

theorem handlePrivateImageMessage_onlineUsers (σ : ServerState)
    (sock : Nat) (toNick file : String) (now : Nat) :
    (handlePrivateImageMessage σ sock toNick file now).1.onlineUsers =
      σ.onlineUsers := by
  have hfr := (checkRateLimit_frame σ sock now).1
  simp only [handlePrivateImageMessage]
  split
  · exact hfr
  · split
    · exact hfr
    · split
      · exact hfr
      · simpa using hfr

theorem registryInv_handleDisconnect (σ : ServerState) (sock : Nat)
    (h : RegistryInv σ) : RegistryInv (handleDisconnect σ sock).1 := by
  unfold RegistryInv at h ⊢
  simp only [handleDisconnect]
  split
  · exact h.sublist (List.filter_sublist _)
  · exact h

theorem registryInv_step (sanitize : String → String) (σ : ServerState)
    (e : Ev) (h : RegistryInv σ) : RegistryInv (step sanitize σ e).1 := by
  cases e with
  | connect sock => exact h
  | disconnect sock => exact registryInv_handleDisconnect σ sock h
  | chatMessage sock text now =>
    have he : (step sanitize σ (Ev.chatMessage sock text
        now)).1.onlineUsers = σ.onlineUsers :=
      handleChatMessage_onlineUsers sanitize σ sock text now
    unfold RegistryInv
    rw [he]
    exact h
  | imageMessage sock file now =>
    have he : (step sanitize σ (Ev.imageMessage sock file
        now)).1.onlineUsers = σ.onlineUsers :=
      handleImageMessage_onlineUsers σ sock file now
    unfold RegistryInv
    rw [he]
    exact h
  | privateMessage sock toNick text now =>
    have he : (step sanitize σ (Ev.privateMessage sock toNick text
        now)).1.onlineUsers = σ.onlineUsers :=
      handlePrivateMessage_onlineUsers sanitize σ sock toNick text now
    unfold RegistryInv
    rw [he]
    exact h
  | privateImageMessage sock toNick file now =>
    have he : (step sanitize σ (Ev.privateImageMessage sock toNick file
        now)).1.onlineUsers = σ.onlineUsers :=
      handlePrivateImageMessage_onlineUsers σ sock toNick file now
    unfold RegistryInv
    rw [he]
    exact h
  | register sock n g pv now =>
    cases hf : σ.onlineUsers.find?
        (fun p => decide (jsToLowerCase p.2.nickname =
          jsToLowerCase (sanitizeOpt sanitize n))) with
    | some q =>
      have he : (step sanitize σ (Ev.register sock n g pv now)).1 =
          (handleDisconnect σ sock).1 := by
        simp only [step, handleRegister, hf]
      unfold RegistryInv
      rw [he]
      exact registryInv_handleDisconnect σ sock h
    | none =>
      have he : (step sanitize σ (Ev.register sock n g pv
          now)).1.onlineUsers =
          mapSet σ.onlineUsers sock
            ⟨sanitizeOpt sanitize n, sanitizeOpt sanitize g,
             sanitizeOpt sanitize pv, sock, now⟩ := by
        simp only [step, handleRegister, hf]
      unfold RegistryInv
      rw [he]
      rw [List.find?_eq_none] at hf
      refine pairwise_mapSet h ?_ (fun a b hr => hr.1)
      intro a ha hak
      have hne : jsToLowerCase a.2.nickname ≠
          jsToLowerCase (sanitizeOpt sanitize n) := by
        have := hf a ha
        simpa using this
      exact ⟨⟨hak, hne⟩, ⟨fun hh => hak hh.symm, fun hh => hne hh.symm⟩⟩

theorem registryInv_run (sanitize : String → String) (σ : ServerState)
    (es : List Ev) (h : RegistryInv σ) :
    RegistryInv (run sanitize σ es).1 := by
  induction es generalizing σ with
  | nil => exact h
  | cons e rest ih => exact ih _ (registryInv_step sanitize σ e h)

end SJ

theorem p0_handleChatMessage_state (τ : P0.P0State) (sock : Nat)
    (text : String) (now : Nat) :
    (P0.handleChatMessage τ sock text now).1 = τ := by
  simp only [P0.handleChatMessage]
  split <;> rfl

theorem p0_handlePrivateMessage_state (τ : P0.P0State) (sock : Nat)
    (toNick text : String) (now : Nat) :
    (P0.handlePrivateMessage τ sock toNick text now).1 = τ := by
  simp only [P0.handlePrivateMessage]
  split
  · rfl
  · split <;> rfl

theorem p0_handleDisconnect_state_some (τ : P0.P0State) (sock : Nat)
    (user : P0.P0User) (hm : mapGet τ.connectedUsers sock = some user) :
    (P0.handleDisconnect τ sock).1 =
      ⟨mapDelete τ.connectedUsers sock,
       if (mapDelete τ.connectedUsers sock).any
           (fun q => decide (q.2.nickname = user.nickname) &&
             decide (q.1 ≠ sock)) then τ.nicknameToSocketId
       else mapDelete τ.nicknameToSocketId user.nickname⟩ := by
  simp only [P0.handleDisconnect, hm]

theorem p0_registryInv_handleDisconnect (τ : P0.P0State) (sock : Nat)
    (h : P0.RegistryInv τ) :
    P0.RegistryInv (P0.handleDisconnect τ sock).1 := by
  rcases h with ⟨hkeys, hmap⟩
  cases hm : mapGet τ.connectedUsers sock with
  | none =>
    have he : (P0.handleDisconnect τ sock).1 = τ := by
      simp only [P0.handleDisconnect, hm]
    rw [he]
    exact ⟨hkeys, hmap⟩
  | some user =>
    rw [p0_handleDisconnect_state_some τ sock user hm]
    refine ⟨hkeys.sublist (List.filter_sublist _), ?_⟩
    intro p hp
    rcases mem_mapDelete.mp hp with ⟨hpm, hpne⟩
    have hold := hmap p hpm
    by_cases hstill : (mapDelete τ.connectedUsers sock).any
        (fun q => decide (q.2.nickname = user.nickname) &&
          decide (q.1 ≠ sock)) = true
    · simp only [hstill, if_true]
      exact hold
    · have hstill2 : (mapDelete τ.connectedUsers sock).any
          (fun q => decide (q.2.nickname = user.nickname) &&
            decide (q.1 ≠ sock)) = false := by
        exact Bool.eq_false_iff.mpr hstill
      simp only [hstill2, Bool.false_eq_true, if_false]
      have hneq : p.2.nickname ≠ user.nickname := by
        intro heq
        apply hstill
        exact List.any_eq_true.mpr ⟨p, hp, by simp [heq, hpne]⟩
      rw [mapGet_mapDelete_ne _ _ _ hneq]
      exact hold

theorem p0_registryInv_userInfoMain (τ : P0.P0State) (sock : Nat)
    (n sx pv : String) (h : P0.RegistryInv τ) :
    P0.RegistryInv (P0.userInfoMain τ sock n sx pv).1 := by
  rcases h with ⟨hkeys, hmap⟩
  cases hm : mapGet τ.nicknameToSocketId n with
  | some ex =>
    by_cases hex : ex ≠ sock
    · have he : (P0.userInfoMain τ sock n sx pv).1 =
          (P0.handleDisconnect τ sock).1 := by
        simp only [P0.userInfoMain, hm]
        rw [if_pos hex]
      rw [he]
      exact p0_registryInv_handleDisconnect τ sock ⟨hkeys, hmap⟩
    · push_neg at hex
      cases hmu : mapGet τ.connectedUsers sock with
      | none =>
        have he : (P0.userInfoMain τ sock n sx pv).1 = τ := by
          simp only [P0.userInfoMain, hm, hex, hmu]
          simp
        rw [he]
        exact ⟨hkeys, hmap⟩
      | some cu =>
        by_cases hd : cu.sex ≠ sx ∨ cu.province ≠ pv
        · have he : (P0.userInfoMain τ sock n sx pv).1 =
              ⟨mapSet τ.connectedUsers sock ⟨sock, n, sx, pv⟩,
               τ.nicknameToSocketId⟩ := by
            simp only [P0.userInfoMain, hm, hex, hmu]
            simp [hd]
          rw [he]
          refine ⟨pairwise_mapSet hkeys
            (fun a _ hak => ⟨hak, fun hh => hak hh.symm⟩)
            (fun a b hr => hr), ?_⟩
          intro p hp
          rcases mem_mapSet_of_nodupKeys hkeys hp with hpe | ⟨hpm, _⟩
          · rw [hpe]
            rw [hex] at hm
            exact hm
          · exact hmap p hpm
        · have he : (P0.userInfoMain τ sock n sx pv).1 = τ := by
            simp only [P0.userInfoMain, hm, hex, hmu]
            simp [hd]
          rw [he]
          exact ⟨hkeys, hmap⟩
  | none =>
    have he : (P0.userInfoMain τ sock n sx pv).1 =
        ⟨mapSet τ.connectedUsers sock ⟨sock, n, sx, pv⟩,
         mapSet τ.nicknameToSocketId n sock⟩ := by
      simp only [P0.userInfoMain, hm]
    rw [he]
    refine ⟨pairwise_mapSet hkeys
      (fun a _ hak => ⟨hak, fun hh => hak hh.symm⟩)
      (fun a b hr => hr), ?_⟩
    intro p hp
    rcases mem_mapSet_of_nodupKeys hkeys hp with hpe | ⟨hpm, _⟩
    · rw [hpe]
      exact mapGet_mapSet_self _ _ _
    · have hold := hmap p hpm
      have hneqn : p.2.nickname ≠ n := by
        intro heq
        rw [heq, hm] at hold
        exact Option.noConfusion hold
      rw [mapGet_mapSet_ne _ _ _ _ hneqn]
      exact hold

theorem p0_registryInv_step (τ : P0.P0State) (e : P0.Ev)
    (h : P0.RegistryInv τ) : P0.RegistryInv (P0.step τ e).1 := by
  cases e with
  | userInfo sock n sx pv =>
    simp only [P0.step, P0.handleUserInfo]
    by_cases hfal : (P0.falsyStr n || P0.falsyStr sx ||
        P0.falsyStr pv) = true
    · rw [if_pos hfal]
      have he : (P0.incompleteBranch τ sock).1 =
          (P0.handleDisconnect τ sock).1 := rfl
      rw [he]
      exact p0_registryInv_handleDisconnect τ sock h
    · rw [if_neg hfal]
      exact p0_registryInv_userInfoMain τ sock _ _ _ h
  | chatMessage sock text now =>
    have he : (P0.step τ (P0.Ev.chatMessage sock text now)).1 = τ :=
      p0_handleChatMessage_state τ sock text now
    rw [he]
    exact h
  | privateMessage sock toNick text now =>
    have he : (P0.step τ
        (P0.Ev.privateMessage sock toNick text now)).1 = τ :=
      p0_handlePrivateMessage_state τ sock toNick text now
    rw [he]
    exact h
  | disconnect sock => exact p0_registryInv_handleDisconnect τ sock h

theorem p0_registryInv_run (τ : P0.P0State) (es : List P0.Ev)
    (h : P0.RegistryInv τ) : P0.RegistryInv (P0.run τ es).1 := by
  induction es generalizing τ with
  | nil => exact h
  | cons e rest ih => exact ih _ (p0_registryInv_step τ e h)

/-- Counterexample to C1: in the part_000 variant the nickname-in-use
check is exact (case-sensitive), so two connections registering `Ana` and
`ana` both succeed and the registry then holds two active profiles whose
nicknames are equal case-insensitively. -/
theorem c1_counterexample :
    (P0.run P0.initialP0State
      [P0.Ev.userInfo 1 (some "Ana") (some "f") (some "caba"),
       P0.Ev.userInfo 2 (some "ana") (some "m")
         (some "caba")]).1.connectedUsers =
      [(1, ⟨1, "Ana", "f", "caba"⟩), (2, ⟨2, "ana", "m", "caba"⟩)] ∧
    jsToLowerCase "Ana" = jsToLowerCase "ana" := by
  exact ⟨by decide, by decide⟩

/-- C1 as amended: in server.js, every reachable registry state has at
most one active profile per connectionId and per case-insensitive
nickname, and a fresh connection registering a nickname held (in any
letter case) by an active connection receives `nickname in use` and is
disconnected, with the registry unchanged.  In the part_000 variant the
registry only guarantees at most one active profile per exact nickname
(and per connectionId): case-insensitive uniqueness does not hold
there. -/
theorem c1_uniqueness_amended :
    (∀ (sanitize : String → String) (es : List SJ.Ev)
       (p q : Nat × SJ.User),
      p ∈ (SJ.run sanitize SJ.initialServerState es).1.onlineUsers →
      q ∈ (SJ.run sanitize SJ.initialServerState es).1.onlineUsers →
      p ≠ q →
      p.1 ≠ q.1 ∧
      jsToLowerCase p.2.nickname ≠ jsToLowerCase q.2.nickname) ∧
    (∀ (sanitize : String → String) (σ : SJ.ServerState) (s1 : Nat)
       (u1 : SJ.User) (s2 : Nat) (n g pv : Option String) (now : Nat),
      (s1, u1) ∈ σ.onlineUsers →
      jsToLowerCase u1.nickname = jsToLowerCase (sanitizeOpt sanitize n) →
      mapGet σ.onlineUsers s2 = none →
      (SJ.step sanitize σ (SJ.Ev.register s2 n g pv now)).1.onlineUsers =
        σ.onlineUsers ∧
      (SJ.step sanitize σ (SJ.Ev.register s2 n g pv now)).2 =
        [SJ.Out.nicknameInUse s2
          (nicknameInUseText (sanitizeOpt sanitize n)),
         SJ.Out.disconnect s2]) ∧
    (∀ (es : List P0.Ev) (p q : Nat × P0.P0User),
      p ∈ (P0.run P0.initialP0State es).1.connectedUsers →
      q ∈ (P0.run P0.initialP0State es).1.connectedUsers →
      p.2.nickname = q.2.nickname → p = q) := by
  refine ⟨?_, ?_, ?_⟩
  · intro sanitize es p q hp hq hne
    have hinv : SJ.RegistryInv
        (SJ.run sanitize SJ.initialServerState es).1 :=
      SJ.registryInv_run sanitize SJ.initialServerState es
        List.Pairwise.nil
    have hsymm : Symmetric (fun (a b : Nat × SJ.User) =>
        a.1 ≠ b.1 ∧ jsToLowerCase a.2.nickname ≠
          jsToLowerCase b.2.nickname) :=
      fun a b hab => ⟨Ne.symm hab.1, Ne.symm hab.2⟩
    exact hinv.forall hsymm hp hq hne
  · intro sanitize σ s1 u1 s2 n g pv now hmem hlow hnone
    have hsome : (σ.onlineUsers.find?
        (fun p => decide (jsToLowerCase p.2.nickname =
          jsToLowerCase (sanitizeOpt sanitize n)))).isSome := by
      rw [List.find?_isSome]
      exact ⟨(s1, u1), hmem, decide_eq_true hlow⟩
    rcases Option.isSome_iff_exists.mp hsome with ⟨q, hq⟩
    constructor
    · simp [SJ.step, SJ.handleRegister, hq, SJ.handleDisconnect, hnone]
    · simp [SJ.step, SJ.handleRegister, hq, SJ.handleDisconnect, hnone]
  · intro es p q hp hq hnick
    have hinv : P0.RegistryInv (P0.run P0.initialP0State es).1 :=
      p0_registryInv_run P0.initialP0State es
        ⟨List.Pairwise.nil, fun p hp => absurd hp (List.not_mem_nil p)⟩
    rcases hinv with ⟨hkeys, hmap⟩
    have h1 := hmap p hp
    have h2 := hmap q hq
    rw [hnick] at h1
    rw [h2] at h1
    have hfst : q.1 = p.1 := Option.some.inj h1
    by_contra hne
    have hsymm : Symmetric (fun (a b : Nat × P0.P0User) =>
        a.1 ≠ b.1) := fun a b hab => Ne.symm hab
    exact (hkeys.forall hsymm hp hq hne) hfst.symm

/-- Witness for `c1_uniqueness_amended`: two registered users in
server.js, a case-varied nickname collision from a fresh socket, and a
single registered user in part_000. -/
theorem c1_uniqueness_witness :
    ((1, (⟨"ana", "f", "caba", 1, 0⟩ : SJ.User)).1 ≠
      (2, (⟨"luis", "m", "caba", 2, 1⟩ : SJ.User)).1 ∧
     jsToLowerCase (⟨"ana", "f", "caba", 1, 0⟩ : SJ.User).nickname ≠
      jsToLowerCase (⟨"luis", "m", "caba", 2, 1⟩ : SJ.User).nickname) ∧
    ((SJ.step id (SJ.run id SJ.initialServerState
        [SJ.Ev.register 1 (some "ana") (some "f") (some "caba") 0]).1
      (SJ.Ev.register 2 (some "Ana") (some "m") (some "caba")
        5)).1.onlineUsers =
      (SJ.run id SJ.initialServerState
        [SJ.Ev.register 1 (some "ana") (some "f") (some "caba")
          0]).1.onlineUsers ∧
     (SJ.step id (SJ.run id SJ.initialServerState
        [SJ.Ev.register 1 (some "ana") (some "f") (some "caba") 0]).1
      (SJ.Ev.register 2 (some "Ana") (some "m") (some "caba") 5)).2 =
      [SJ.Out.nicknameInUse 2
        (nicknameInUseText (sanitizeOpt id (some "Ana"))),
       SJ.Out.disconnect 2]) ∧
    (1, (⟨1, "ana", "f", "caba"⟩ : P0.P0User)) =
      (1, (⟨1, "ana", "f", "caba"⟩ : P0.P0User)) := by
  refine ⟨?_, ?_, ?_⟩
  · exact c1_uniqueness_amended.1 id
      [SJ.Ev.register 1 (some "ana") (some "f") (some "caba") 0,
       SJ.Ev.register 2 (some "luis") (some "m") (some "caba") 1]
      (1, ⟨"ana", "f", "caba", 1, 0⟩) (2, ⟨"luis", "m", "caba", 2, 1⟩)
      (by decide) (by decide) (by decide)
  · exact c1_uniqueness_amended.2.1 id _ 1 ⟨"ana", "f", "caba", 1, 0⟩ 2
      (some "Ana") (some "m") (some "caba") 5 (by decide) (by decide)
      (by decide)
  · exact c1_uniqueness_amended.2.2
      [P0.Ev.userInfo 1 (some "ana") (some "f") (some "caba")]
      (1, ⟨1, "ana", "f", "caba"⟩) (1, ⟨1, "ana", "f", "caba"⟩)
      (by decide) (by decide) (by decide)

namespace SJ

theorem roomFeed_append (s : Nat) (p : String) (o1 o2 : List Out) :
    roomFeed s p (o1 ++ o2) = roomFeed s p o1 ++ roomFeed s p o2 := by
  induction o1 with
  | nil => rfl
  | cons o rest ih =>
    cases o <;> simp [roomFeed, ih]

theorem updFeed (σfun : String → List RoomMsg) (prov p : String)
    (m : RoomMsg) (s : Nat) :
    updFun σfun prov (σfun prov ++ [m]) p =
      σfun p ++ roomFeed s p [Out.chatMessage prov m] := by
  by_cases hpv : p = prov
  · subst hpv
    simp [updFun, roomFeed]
  · simp [updFun, hpv, roomFeed, Ne.symm hpv]

theorem step_roomFeed (sanitize : String → String) (σ : ServerState)
    (e : Ev) (s : Nat) (p : String)
    (hreg : isRegisterFrom s e = false) :
    (step sanitize σ e).1.provinceChatHistory p =
      σ.provinceChatHistory p ++ roomFeed s p (step sanitize σ e).2 := by
  cases e with
  | connect sock => simp [step, handleConnect, roomFeed]
  | disconnect sock =>
    simp only [step, handleDisconnect]
    split
    · simp [roomFeed]
    · simp [roomFeed]
  | register sock n g pv now =>
    have hsne : ¬ (sock = s) := by
      simpa [isRegisterFrom] using hreg
    cases hf : σ.onlineUsers.find?
        (fun q => decide (jsToLowerCase q.2.nickname =
          jsToLowerCase (sanitizeOpt sanitize n))) with
    | some q =>
      simp only [step, handleRegister, hf, handleDisconnect]
      split
      · simp [roomFeed]
      · simp [roomFeed]
    | none =>
      simp only [step, handleRegister, hf]
      split
      · simp [roomFeed]
      · simp [roomFeed, hsne]
  | chatMessage sock text now =>
    have hfr := checkRateLimit_frame σ sock now
    by_cases hr : (checkRateLimit σ sock now).1 = false
    · rcases checkRateLimit_false_out σ sock now hr with ⟨txt, htxt⟩
      simp only [step, handleChatMessage]
      rw [if_pos hr, htxt]
      simp [roomFeed, congrFun hfr.2.1 p]
    · have htrue : (checkRateLimit σ sock now).1 = true := by
        revert hr
        cases (checkRateLimit σ sock now).1 <;> simp
      have hout := checkRateLimit_true_out σ sock now htrue
      simp only [step, handleChatMessage]
      rw [if_neg hr, hout]
      rcases hu : mapGet (checkRateLimit σ sock now).2.1.onlineUsers sock
        with _ | u
      · simp only [hu, getSenderData]
        rw [List.nil_append]
        show updFun _ _ _ p = _
        rw [updFeed _ "unknown" p _ s, congrFun hfr.2.1 p]
      · simp only [hu, getSenderData]
        rw [List.nil_append]
        show updFun _ _ _ p = _
        rw [updFeed _ u.province p _ s, congrFun hfr.2.1 p]
  | imageMessage sock file now =>
    have hfr := checkRateLimit_frame σ sock now
    by_cases hr : (checkRateLimit σ sock now).1 = false
    · rcases checkRateLimit_false_out σ sock now hr with ⟨txt, htxt⟩
      simp only [step, handleImageMessage]
      rw [if_pos hr, htxt]
      simp [roomFeed, congrFun hfr.2.1 p]
    · have htrue : (checkRateLimit σ sock now).1 = true := by
        revert hr
        cases (checkRateLimit σ sock now).1 <;> simp
      have hout := checkRateLimit_true_out σ sock now htrue
      simp only [step, handleImageMessage]
      rw [if_neg hr, hout]
      rcases hu : mapGet (checkRateLimit σ sock now).2.1.onlineUsers sock
        with _ | u
      · simp only [hu, getSenderData]
        rw [List.nil_append]
        show updFun _ _ _ p = _
        rw [updFeed _ "unknown" p _ s, congrFun hfr.2.1 p]
      · simp only [hu, getSenderData]
        rw [List.nil_append]
        show updFun _ _ _ p = _
        rw [updFeed _ u.province p _ s, congrFun hfr.2.1 p]
  | privateMessage sock toNick text now =>
    have hfr := checkRateLimit_frame σ sock now
    by_cases hr : (checkRateLimit σ sock now).1 = false
    · rcases checkRateLimit_false_out σ sock now hr with ⟨txt, htxt⟩
      simp only [step, handlePrivateMessage]
      rw [if_pos hr, htxt]
      simp [roomFeed, congrFun hfr.2.1 p]
    · have htrue : (checkRateLimit σ sock now).1 = true := by
        revert hr
        cases (checkRateLimit σ sock now).1 <;> simp
      have hout := checkRateLimit_true_out σ sock now htrue
      simp only [step, handlePrivateMessage]
      rw [if_neg hr, hout]
      split
      · simp [roomFeed, congrFun hfr.2.1 p]
      · split
        · simp [roomFeed, congrFun hfr.2.1 p]
        · simp [roomFeed, congrFun hfr.2.1 p]
  | privateImageMessage sock toNick file now =>
    have hfr := checkRateLimit_frame σ sock now
    by_cases hr : (checkRateLimit σ sock now).1 = false
    · rcases checkRateLimit_false_out σ sock now hr with ⟨txt, htxt⟩
      simp only [step, handlePrivateImageMessage]
      rw [if_pos hr, htxt]
      simp [roomFeed, congrFun hfr.2.1 p]
    · have htrue : (checkRateLimit σ sock now).1 = true := by
        revert hr
        cases (checkRateLimit σ sock now).1 <;> simp
      have hout := checkRateLimit_true_out σ sock now htrue
      simp only [step, handlePrivateImageMessage]
      rw [if_neg hr, hout]
      split
      · simp [roomFeed, congrFun hfr.2.1 p]
      · split
        · simp [roomFeed, congrFun hfr.2.1 p]
        · simp [roomFeed, congrFun hfr.2.1 p]

theorem run_roomFeed (sanitize : String → String) (σ : ServerState)
    (es : List Ev) (s : Nat) (p : String)
    (h : ∀ e ∈ es, isRegisterFrom s e = false) :
    (run sanitize σ es).1.provinceChatHistory p =
      σ.provinceChatHistory p ++ roomFeed s p (run sanitize σ es).2 := by
  induction es generalizing σ with
  | nil => simp [run, roomFeed]
  | cons e rest ih =>
    simp only [run]
    rw [roomFeed_append]
    rw [ih (step sanitize σ e).1
      (fun e2 he2 => h e2 (List.mem_cons_of_mem _ he2))]
    rw [step_roomFeed sanitize σ e s p (h e (List.mem_cons_self _ _))]
    rw [List.append_assoc]

end SJ

namespace SJ

theorem register_success_replay (sanitize : String → String)
    (σ : ServerState) (s : Nat) (n g pv : Option String) (now : Nat)
    (hf : σ.onlineUsers.find?
      (fun q => decide (jsToLowerCase q.2.nickname =
        jsToLowerCase (sanitizeOpt sanitize n))) = none) :
    (step sanitize σ (Ev.register s n g pv now)).1.provinceChatHistory =
      σ.provinceChatHistory ∧
    roomFeed s (sanitizeOpt sanitize pv)
      (step sanitize σ (Ev.register s n g pv now)).2 =
      σ.provinceChatHistory (sanitizeOpt sanitize pv) := by
  simp only [step, handleRegister, hf]
  constructor
  · trivial
  · split
    · simp_all [roomFeed, List.isEmpty_iff]
    · simp [roomFeed]

end SJ

/-- C8: in server.js, a connection that successfully registers into a
region whose room history holds some messages receives exactly that
history, in its stored order, before any new message for that region:
over the whole subsequent event sequence (with no further register from
that socket), the room feed observed by the registrant equals the final
room history, whose first entries are exactly the pre-registration
history. -/
theorem c8_history_replay (sanitize : String → String)
    (σ : SJ.ServerState) (s : Nat) (n g pv : Option String) (now : Nat)
    (es : List SJ.Ev)
    (hf : σ.onlineUsers.find?
      (fun q => decide (jsToLowerCase q.2.nickname =
        jsToLowerCase (sanitizeOpt sanitize n))) = none)
    (hes : ∀ e ∈ es, SJ.isRegisterFrom s e = false) :
    SJ.roomFeed s (sanitizeOpt sanitize pv)
      (SJ.run sanitize σ (SJ.Ev.register s n g pv now :: es)).2 =
      (SJ.run sanitize σ
        (SJ.Ev.register s n g pv now :: es)).1.provinceChatHistory
        (sanitizeOpt sanitize pv) ∧
    ((SJ.run sanitize σ
        (SJ.Ev.register s n g pv now :: es)).1.provinceChatHistory
        (sanitizeOpt sanitize pv)).take
        (σ.provinceChatHistory (sanitizeOpt sanitize pv)).length =
      σ.provinceChatHistory (sanitizeOpt sanitize pv) := by
  have hrepl := SJ.register_success_replay sanitize σ s n g pv now hf
  have hrun := SJ.run_roomFeed sanitize
    (SJ.step sanitize σ (SJ.Ev.register s n g pv now)).1 es s
    (sanitizeOpt sanitize pv) hes
  have hcons : SJ.run sanitize σ (SJ.Ev.register s n g pv now :: es) =
      ((SJ.run sanitize
          (SJ.step sanitize σ (SJ.Ev.register s n g pv now)).1 es).1,
       (SJ.step sanitize σ (SJ.Ev.register s n g pv now)).2 ++
       (SJ.run sanitize
          (SJ.step sanitize σ (SJ.Ev.register s n g pv now)).1 es).2) := by
    simp [SJ.run]
  rw [hcons]
  rw [SJ.roomFeed_append]
  rw [hrepl.2]
  rw [congrFun hrepl.1 (sanitizeOpt sanitize pv)] at hrun
  constructor
  · exact hrun.symm
  · rw [hrun]
    exact List.take_left _ _

/-- Witness for `c8_history_replay`: ana registered in caba with one
stored message; luis registers into caba and then ana sends another
message. -/
theorem c8_history_replay_witness :
    SJ.roomFeed 2 (sanitizeOpt id (some "caba"))
      (SJ.run id (SJ.run id SJ.initialServerState
          [SJ.Ev.register 1 (some "ana") (some "f") (some "caba") 0,
           SJ.Ev.chatMessage 1 "hola" 5]).1
        (SJ.Ev.register 2 (some "luis") (some "m") (some "caba") 50 ::
          [SJ.Ev.chatMessage 1 "segundo" 2000])).2 =
      (SJ.run id (SJ.run id SJ.initialServerState
          [SJ.Ev.register 1 (some "ana") (some "f") (some "caba") 0,
           SJ.Ev.chatMessage 1 "hola" 5]).1
        (SJ.Ev.register 2 (some "luis") (some "m") (some "caba") 50 ::
          [SJ.Ev.chatMessage 1 "segundo"
            2000])).1.provinceChatHistory
        (sanitizeOpt id (some "caba")) ∧
    ((SJ.run id (SJ.run id SJ.initialServerState
          [SJ.Ev.register 1 (some "ana") (some "f") (some "caba") 0,
           SJ.Ev.chatMessage 1 "hola" 5]).1
        (SJ.Ev.register 2 (some "luis") (some "m") (some "caba") 50 ::
          [SJ.Ev.chatMessage 1 "segundo"
            2000])).1.provinceChatHistory
        (sanitizeOpt id (some "caba"))).take
        ((SJ.run id SJ.initialServerState
          [SJ.Ev.register 1 (some "ana") (some "f") (some "caba") 0,
           SJ.Ev.chatMessage 1 "hola"
             5]).1.provinceChatHistory
          (sanitizeOpt id (some "caba"))).length =
      (SJ.run id SJ.initialServerState
        [SJ.Ev.register 1 (some "ana") (some "f") (some "caba") 0,
         SJ.Ev.chatMessage 1 "hola" 5]).1.provinceChatHistory
        (sanitizeOpt id (some "caba")) :=
  c8_history_replay id _ 2 (some "luis") (some "m") (some "caba") 50
    [SJ.Ev.chatMessage 1 "segundo" 2000] (by decide) (by decide)
